import Mathlib

/-!
Shallow embedding of `src/src/clock_sdcc/src/main.c`, the real-time core of a
24-hour ("military time") alarm clock for an AT89x51 microcontroller.

The two interrupt handlers `control_isr` (1 ms tick: button debounce,
auto-repeat, tone cadence, digit rotation) and `timer_isr` (seconds engine:
time keeping, alarm matching) are modelled as pure functions on an explicit
state record.  All `uint8_t` fields are `Nat` values taken modulo 256 where
the C code can overflow, `milliseconds`/`prev_milliseconds` are `uint16_t`
values modulo 65536.  Hardware register writes (timer reload, LED ports) are
output-only in the source and are not part of the state.

Switch inputs are the raw pin levels: a field is `true` when the pin is high
(switch released, pull-up) and `false` when pressed, so that `!pin` in the C
source becomes `pin = false` here.
-/

namespace MilClock

/-- `MIN_DELAY`: minimum delay for switch press (main.c line 83). -/
def MIN_DELAY : Nat := 75

/-- `INIT_DELAY`: initial delay for switch press when setting time (line 85). -/
def INIT_DELAY : Nat := 125

/-- `RAMP_DELAY`: ramp for initial delay to decrease when held (line 87). -/
def RAMP_DELAY : Nat := 5

/-- `TONE_TIME`: milliseconds before the next tone while active (line 89). -/
def TONE_TIME : Nat := 250

/-- `ON` (line 53). -/
def ON : Nat := 1

/-- `OFF` (line 55). -/
def OFF : Nat := 0

/-- `struct time` (main.c lines 95-101): time decomposed into decimal digits. -/
@[ext]
structure Time where
  one_minutes : Nat
  ten_minutes : Nat
  one_hours : Nat
  ten_hours : Nat
deriving DecidableEq

/-- Raw switch pin levels read by `control_isr`/`timer_isr`; `true` = pin
high = released (pull-up), `false` = pressed, mirroring the active-low
reads `!ALARM_SWITCH`, `!SET_A_SWITCH`, `!SET_T_SWITCH`, `!MINUTE_SWITCH`,
`!HOUR_SWITCH` in the source. -/
@[ext]
structure Pins where
  alarm : Bool
  set_a : Bool
  set_t : Bool
  minute : Bool
  hour : Bool
deriving DecidableEq

/-- The mutable globals of main.c (lines 104-122) touched by the two ISRs. -/
@[ext]
structure ClockState where
  digitSelect : Nat
  switchTimeout : Nat
  initTimeout : Nat
  milliseconds : Nat
  prev_milliseconds : Nat
  seconds : Nat
  gs_timeKeeper : Time
  gs_alarmKeeper : Time
  alarm_on_off : Nat
  alarm_tone : Nat
deriving DecidableEq

/-- Initial values of the globals (main.c lines 104-122): everything zero
except `digitSelect = 1` and `initTimeout = INIT_DELAY`. -/
def initState : ClockState :=
  { digitSelect := 1
    switchTimeout := 0
    initTimeout := INIT_DELAY
    milliseconds := 0
    prev_milliseconds := 0
    seconds := 0
    gs_timeKeeper := ⟨0, 0, 0, 0⟩
    gs_alarmKeeper := ⟨0, 0, 0, 0⟩
    alarm_on_off := OFF
    alarm_tone := 0 }

/-- `if(one_minutes > 9) { ten_minutes++; one_minutes = 0; }`
(main.c lines 288-292, 343-347, 426-430). -/
def carry_one_minutes (k : Time) : Time :=
  if k.one_minutes > 9 then
    { k with ten_minutes := (k.ten_minutes + 1) % 256, one_minutes := 0 }
  else k

/-- `if(ten_minutes > 5) { ten_minutes = 0; }` — the manual-set variant,
which does NOT carry into `one_hours` (main.c lines 294-297, 349-352). -/
def reset_ten_minutes (k : Time) : Time :=
  if k.ten_minutes > 5 then { k with ten_minutes := 0 } else k

/-- `if(ten_minutes > 5) { one_hours++; ten_minutes = 0; }` — the seconds
engine's variant, with the hour carry (main.c lines 433-437). -/
def carry_ten_minutes (k : Time) : Time :=
  if k.ten_minutes > 5 then
    { k with one_hours := (k.one_hours + 1) % 256, ten_minutes := 0 }
  else k

/-- `if(one_hours > 9) { ten_hours++; one_hours = 0; }`
(main.c lines 299-303, 354-358, 440-444). -/
def carry_one_hours (k : Time) : Time :=
  if k.one_hours > 9 then
    { k with ten_hours := (k.ten_hours + 1) % 256, one_hours := 0 }
  else k

/-- `if(ten_hours >= 2 && one_hours >= 4) { ten_hours = 0; one_hours = 0; }`
(main.c lines 305-309, 360-364, 447-451): the 24:00 → 00:00 wrap. -/
def wrap_24 (k : Time) : Time :=
  if k.ten_hours ≥ 2 ∧ k.one_hours ≥ 4 then
    { k with ten_hours := 0, one_hours := 0 }
  else k

/-- The digit-rollover pass of the manual-set branches of `control_isr`
(main.c lines 288-309 for the alarm keeper, 343-364 for the time keeper;
the two blocks are textually identical up to the struct they update).
Note that, unlike the seconds engine, the `ten_minutes > 5` case only
resets `ten_minutes` and does not carry into `one_hours`. -/
def control_roll (k : Time) : Time :=
  wrap_24 (carry_one_hours (reset_ten_minutes (carry_one_minutes k)))

/-- A full accepted manual increment (main.c lines 281-309 / 336-364):
add one to `one_minutes` when the minute switch is pressed (`mp = false`),
one to `one_hours` when the hour switch is pressed (`hp = false`), then run
the `control_roll` pass. -/
def control_inc (mp hp : Bool) (k : Time) : Time :=
  control_roll
    { k with
      one_minutes := (k.one_minutes + (if mp then 0 else 1)) % 256
      one_hours := (k.one_hours + (if hp then 0 else 1)) % 256 }

/-- The alarm on/off branch of `control_isr` (main.c lines 245-265):
debounce-count the hold, and toggle `alarm_on_off` exactly when the count
hits `MIN_DELAY`; turning the alarm off also silences the tone. -/
def alarm_branch (s : ClockState) : ClockState :=
  let st := if s.switchTimeout > MIN_DELAY then s.switchTimeout
    else (s.switchTimeout + 1) % 256
  let s := { s with switchTimeout := st }
  if st = MIN_DELAY then
    let a := if s.alarm_on_off = ON then OFF else ON
    let s := { s with alarm_on_off := a }
    if a = OFF then { s with prev_milliseconds := 0, alarm_tone := 0 } else s
  else s

/-- The alarm-set branch of `control_isr` (main.c lines 267-320): count the
hold, reset the ramp when no increment switch is pressed, and apply one
`control_inc` to `gs_alarmKeeper` when an increment switch is pressed and
the hold exceeds the current threshold; `mp`/`hp` are the minute/hour pin
levels (`false` = pressed). -/
def set_a_branch (mp hp : Bool) (s : ClockState) : ClockState :=
  let s := { s with switchTimeout := (s.switchTimeout + 1) % 256 }
  let s := if mp = true ∧ hp = true then { s with initTimeout := INIT_DELAY } else s
  if (mp = false ∨ hp = false) ∧ s.switchTimeout > s.initTimeout then
    let s := { s with
      gs_alarmKeeper := control_inc mp hp s.gs_alarmKeeper
      switchTimeout := 0 }
    if s.initTimeout > MIN_DELAY then
      { s with initTimeout := s.initTimeout - RAMP_DELAY }
    else s
  else s

/-- The time-set branch of `control_isr` (main.c lines 322-375): identical
to `set_a_branch` but updating `gs_timeKeeper`. -/
def set_t_branch (mp hp : Bool) (s : ClockState) : ClockState :=
  let s := { s with switchTimeout := (s.switchTimeout + 1) % 256 }
  let s := if mp = true ∧ hp = true then { s with initTimeout := INIT_DELAY } else s
  if (mp = false ∨ hp = false) ∧ s.switchTimeout > s.initTimeout then
    let s := { s with
      gs_timeKeeper := control_inc mp hp s.gs_timeKeeper
      switchTimeout := 0 }
    if s.initTimeout > MIN_DELAY then
      { s with initTimeout := s.initTimeout - RAMP_DELAY }
    else s
  else s

/-- The switch-handling if/else-if chain of `control_isr`
(main.c lines 244-381). -/
def switch_logic (p : Pins) (s : ClockState) : ClockState :=
  if p.alarm = false then alarm_branch s
  else if p.set_a = false then set_a_branch p.minute p.hour s
  else if p.set_t = false then set_t_branch p.minute p.hour s
  else
    -- no switch pressed (lines 377-381)
    { s with switchTimeout := 0, initTimeout := INIT_DELAY }

/-- Tone cadence of `control_isr` (main.c lines 384-391); the uint16_t
subtraction `milliseconds - prev_milliseconds` wraps modulo 65536. -/
def tone_logic (s : ClockState) : ClockState :=
  if s.alarm_tone ≠ 0 then
    if (s.milliseconds + 65536 - s.prev_milliseconds) % 65536 > TONE_TIME then
      { s with
        prev_milliseconds := s.milliseconds
        alarm_tone := if s.alarm_tone ≤ 1 then 7 else s.alarm_tone - 1 }
    else s
  else s

/-- Digit-select rotation of `control_isr` (main.c line 394):
`digitSelect = (digitSelect < (1 << 3) ? digitSelect << 1 : 1)`. -/
def digit_logic (s : ClockState) : ClockState :=
  { s with digitSelect := if s.digitSelect < 8 then (s.digitSelect * 2) % 256 else 1 }

/-- `control_isr` (main.c lines 232-396): millisecond tick.  Increments
`milliseconds`, runs the switch chain, the tone cadence and the digit
rotation, in source order. -/
def control_isr (p : Pins) (s : ClockState) : ClockState :=
  digit_logic (tone_logic (switch_logic p
    { s with milliseconds := (s.milliseconds + 1) % 65536 }))

/-- The seconds-engine digit-rollover cascade of `timer_isr`
(main.c lines 426-451), applied after the minute increment. -/
def timer_roll (k : Time) : Time :=
  wrap_24 (carry_one_hours (carry_ten_minutes (carry_one_minutes k)))

/-- The time-advance part of `timer_isr` (main.c lines 415-451): increment
`seconds`; past 59, reset it and increment the minutes; then run the digit
rollover cascade. -/
def timer_core (s : ClockState) : ClockState :=
  let s := { s with seconds := (s.seconds + 1) % 256 }
  let s := if s.seconds > 59 then
      { s with
        gs_timeKeeper :=
          { s.gs_timeKeeper with
            one_minutes := (s.gs_timeKeeper.one_minutes + 1) % 256 }
        seconds := 0 }
    else s
  { s with gs_timeKeeper := timer_roll s.gs_timeKeeper }

/-- The alarm-match part of `timer_isr` (main.c lines 453-471): when the
alarm is on and all four digits of `gs_alarmKeeper` equal those of
`gs_timeKeeper`, start the tone at second 0 and stop it at second 59. -/
def alarm_eval (s : ClockState) : ClockState :=
  if s.alarm_on_off = ON then
    if s.gs_alarmKeeper.ten_hours = s.gs_timeKeeper.ten_hours ∧
        s.gs_alarmKeeper.one_hours = s.gs_timeKeeper.one_hours ∧
        s.gs_alarmKeeper.ten_minutes = s.gs_timeKeeper.ten_minutes ∧
        s.gs_alarmKeeper.one_minutes = s.gs_timeKeeper.one_minutes then
      let s := if s.seconds = 0 then
          { s with prev_milliseconds := s.milliseconds, alarm_tone := 7 }
        else s
      if s.seconds ≥ 59 then
        { s with prev_milliseconds := 0, alarm_tone := 0 }
      else s
    else s
  else s

/-- `timer_isr` (main.c lines 399-472): seconds engine.  If the time-set
switch is pressed, hold `seconds` at 0 and return; otherwise advance
`seconds`, roll the time keeper, then evaluate the alarm match. -/
def timer_isr (p : Pins) (s : ClockState) : ClockState :=
  if p.set_t = false then
    { s with seconds := 0 }
  else
    alarm_eval (timer_core s)

/-- An interrupt event: one firing of either ISR under given pin levels. -/
inductive Ev where
  | ctrl (p : Pins)
  | tmr (p : Pins)
deriving DecidableEq

/-- One event step. -/
def stepEv (e : Ev) (s : ClockState) : ClockState :=
  match e with
  | .ctrl p => control_isr p s
  | .tmr p => timer_isr p s

/-- Run a sequence of interrupt events from a state. -/
def run (l : List Ev) (s : ClockState) : ClockState :=
  l.foldl (fun s e => stepEv e s) s

/-- A state is reachable when some event sequence produces it from the
power-on state. -/
def Reachable (s : ClockState) : Prop :=
  ∃ l : List Ev, run l initState = s

/-- All pins high: no switch pressed. -/
def idlePins : Pins := ⟨true, true, true, true, true⟩

/-- Only the alarm on/off switch pressed. -/
def alarmPins : Pins := ⟨false, true, true, true, true⟩

/-- Only the alarm-set mode switch pressed (no increment switch). -/
def setAPins : Pins := ⟨true, false, true, true, true⟩

/-- Time-set mode held together with increment switches `mp` (minute) and
`hp` (hour); `false` = pressed. -/
def setTPins (mp hp : Bool) : Pins := ⟨true, true, false, mp, hp⟩

/-- Alarm-set mode held together with increment switches. -/
def setAIncPins (mp hp : Bool) : Pins := ⟨true, false, true, mp, hp⟩

/-- One whole-second advance of the time keeper: the minute increment of
`timer_isr` line 421 followed by the rollover cascade of lines 426-451. -/
def mroll (t : Time) : Time :=
  timer_roll { t with one_minutes := (t.one_minutes + 1) % 256 }

/-- The ramp-down applied to `initTimeout` after an accepted manual
increment (main.c lines 315-318 / 370-373). -/
def ramp (T : Nat) : Nat := if T > MIN_DELAY then T - RAMP_DELAY else T

/-- The repeat threshold in force before the `(k+1)`-th accepted increment
of an uninterrupted hold: `INIT_DELAY` ramped down `k` times. -/
def T_seq (k : Nat) : Nat := ramp^[k] INIT_DELAY

/-- Tick count after which the `k`-th accepted increment of an
uninterrupted hold has just fired: the sum of the first `k` inter-repeat
intervals, the `j`-th interval being `T_seq j + 1` ticks. -/
def acceptTick : Nat → Nat
  | 0 => 0
  | k + 1 => (T_seq k + 1) + acceptTick k

/-- The digit-range invariant claimed for every reachable time value:
each digit in range and the 4-tuple below 24:00. -/
def timeInv (t : Time) : Prop :=
  t.one_minutes ≤ 9 ∧ t.ten_minutes ≤ 5 ∧ t.one_hours ≤ 9 ∧
    ¬(2 ≤ t.ten_hours ∧ 4 ≤ t.one_hours)

/-- The inductive strengthening of `timeInv` actually preserved by the
code: additionally `ten_hours ≤ 2`. -/
def strongInv (t : Time) : Prop :=
  t.one_minutes ≤ 9 ∧ t.ten_minutes ≤ 5 ∧ t.one_hours ≤ 9 ∧
    t.ten_hours ≤ 2 ∧ (t.ten_hours = 2 → t.one_hours ≤ 3)

/-- Both keepers satisfy the strengthened invariant. -/
def Inv (s : ClockState) : Prop :=
  strongInv s.gs_timeKeeper ∧ strongInv s.gs_alarmKeeper

/-- The seconds/time projection of `timer_core`: the pure evolution of
`(seconds, gs_timeKeeper)` per seconds-engine invocation. -/
def tstep (x : Nat × Time) : Nat × Time :=
  let sec := (x.1 + 1) % 256
  if sec > 59 then (0, mroll x.2) else (sec, timer_roll x.2)

/-- Modelled from the spec §4.2: "`onesMinutes > 9` → increment
`tensMinutes`, reset `onesMinutes` to 0". -/
def spec_carry_ones (t : Time) : Time :=
  if t.one_minutes > 9 then
    { t with ten_minutes := t.ten_minutes + 1, one_minutes := 0 }
  else t

/-- Modelled from the spec §4.2: "`tensMinutes > 5` → increment
`onesHours`, reset `tensMinutes` to 0". -/
def spec_carry_tens (t : Time) : Time :=
  if t.ten_minutes > 5 then
    { t with one_hours := t.one_hours + 1, ten_minutes := 0 }
  else t

/-- Modelled from the spec §4.2: "`onesHours > 9` → increment `tensHours`,
reset `onesHours` to 0". -/
def spec_carry_hours (t : Time) : Time :=
  if t.one_hours > 9 then
    { t with ten_hours := t.ten_hours + 1, one_hours := 0 }
  else t

/-- Modelled from the spec §4.2: "Joint wraparound: `tensHours >= 2 AND
onesHours >= 4` → reset both to 0". -/
def spec_wrap (t : Time) : Time :=
  if t.ten_hours ≥ 2 ∧ t.one_hours ≥ 4 then
    { t with ten_hours := 0, one_hours := 0 }
  else t

/-- Modelled from the spec §4.2: the digit-rollover rules applied in the
stated order, checked on every invocation. -/
def spec_rollover (t : Time) : Time :=
  spec_wrap (spec_carry_hours (spec_carry_tens (spec_carry_ones t)))

/-- Modelled from the spec §4.2 / claim C3: "increment seconds; if seconds
> 59 then reset seconds to 0 and increment onesMinutes"; then the rollover
rules, applied on every invocation. -/
def spec_seconds_step (sec : Nat) (t : Time) : Nat × Time :=
  let sec := sec + 1
  if sec > 59 then (0, spec_rollover { t with one_minutes := t.one_minutes + 1 })
  else (sec, spec_rollover t)

lemma switch_logic_alarm (s : ClockState) : switch_logic alarmPins s = alarm_branch s := by
  simp [switch_logic, alarmPins]

lemma switch_logic_setT (mp hp : Bool) (s : ClockState) :
    switch_logic (setTPins mp hp) s = set_t_branch mp hp s := by
  simp [switch_logic, setTPins]

lemma switch_logic_setAInc (mp hp : Bool) (s : ClockState) :
    switch_logic (setAIncPins mp hp) s = set_a_branch mp hp s := by
  simp [switch_logic, setAIncPins]

lemma switch_logic_idle (s : ClockState) :
    switch_logic idlePins s = { s with switchTimeout := 0, initTimeout := INIT_DELAY } := by
  simp [switch_logic, idlePins]

lemma switch_logic_setA (s : ClockState) :
    switch_logic setAPins s
      = { s with switchTimeout := (s.switchTimeout + 1) % 256, initTimeout := INIT_DELAY } := by
  have h : switch_logic setAPins s = set_a_branch true true s := by simp [switch_logic, setAPins]
  rw [h]; unfold set_a_branch; dsimp only; split_ifs <;> simp_all

lemma alarm_branch_noflip (s : ClockState) (h1 : s.switchTimeout ≤ 75) (h2 : s.switchTimeout ≠ 74) :
    alarm_branch s = { s with switchTimeout := s.switchTimeout + 1 } := by
  unfold alarm_branch MIN_DELAY ON OFF
  have hm : (s.switchTimeout + 1) % 256 = s.switchTimeout + 1 := Nat.mod_eq_of_lt (by omega)
  dsimp only
  split_ifs <;> (try simp_all) <;> omega

lemma alarm_branch_flip (s : ClockState) (h1 : s.switchTimeout = 74) :
    alarm_branch s =
      (if s.alarm_on_off = 1 then
        { s with switchTimeout := 75, alarm_on_off := 0, prev_milliseconds := 0, alarm_tone := 0 }
      else
        { s with switchTimeout := 75, alarm_on_off := 1 }) := by
  unfold alarm_branch MIN_DELAY ON OFF
  dsimp only
  split_ifs <;> (try simp_all) <;> omega

lemma alarm_branch_high (s : ClockState) (h1 : 75 < s.switchTimeout) :
    alarm_branch s = s := by
  unfold alarm_branch MIN_DELAY ON OFF
  dsimp only
  split_ifs <;> (try simp_all) <;> omega

lemma set_t_branch_noaccept (mp hp : Bool) (h : mp = false ∨ hp = false)
    (s : ClockState) (h1 : s.switchTimeout + 1 ≤ s.initTimeout) (h2 : s.switchTimeout ≤ 254) :
    set_t_branch mp hp s = { s with switchTimeout := s.switchTimeout + 1 } := by
  unfold set_t_branch
  have hm : (s.switchTimeout + 1) % 256 = s.switchTimeout + 1 := Nat.mod_eq_of_lt (by omega)
  dsimp only
  cases mp <;> cases hp <;> split_ifs <;> (try simp_all) <;> omega

lemma set_t_branch_accept (mp hp : Bool) (h : mp = false ∨ hp = false)
    (s : ClockState) (h1 : s.switchTimeout + 1 > s.initTimeout) (h2 : s.switchTimeout ≤ 254) :
    set_t_branch mp hp s =
      { s with gs_timeKeeper := control_inc mp hp s.gs_timeKeeper,
               switchTimeout := 0, initTimeout := ramp s.initTimeout } := by
  unfold set_t_branch ramp
  have hm : (s.switchTimeout + 1) % 256 = s.switchTimeout + 1 := Nat.mod_eq_of_lt (by omega)
  dsimp only
  cases mp <;> cases hp <;> split_ifs <;> (try simp_all) <;> omega

lemma set_a_branch_noaccept (mp hp : Bool) (h : mp = false ∨ hp = false)
    (s : ClockState) (h1 : s.switchTimeout + 1 ≤ s.initTimeout) (h2 : s.switchTimeout ≤ 254) :
    set_a_branch mp hp s = { s with switchTimeout := s.switchTimeout + 1 } := by
  unfold set_a_branch
  have hm : (s.switchTimeout + 1) % 256 = s.switchTimeout + 1 := Nat.mod_eq_of_lt (by omega)
  dsimp only
  cases mp <;> cases hp <;> split_ifs <;> (try simp_all) <;> omega

lemma set_a_branch_accept (mp hp : Bool) (h : mp = false ∨ hp = false)
    (s : ClockState) (h1 : s.switchTimeout + 1 > s.initTimeout) (h2 : s.switchTimeout ≤ 254) :
    set_a_branch mp hp s =
      { s with gs_alarmKeeper := control_inc mp hp s.gs_alarmKeeper,
               switchTimeout := 0, initTimeout := ramp s.initTimeout } := by
  unfold set_a_branch ramp
  have hm : (s.switchTimeout + 1) % 256 = s.switchTimeout + 1 := Nat.mod_eq_of_lt (by omega)
  dsimp only
  cases mp <;> cases hp <;> split_ifs <;> (try simp_all) <;> omega

lemma tone_logic_frame (s : ClockState) :
    (tone_logic s).gs_timeKeeper = s.gs_timeKeeper ∧
    (tone_logic s).gs_alarmKeeper = s.gs_alarmKeeper ∧
    (tone_logic s).alarm_on_off = s.alarm_on_off ∧
    (tone_logic s).switchTimeout = s.switchTimeout ∧
    (tone_logic s).initTimeout = s.initTimeout ∧
    (tone_logic s).seconds = s.seconds := by
  unfold tone_logic; split_ifs <;> simp

lemma digit_logic_frame (s : ClockState) :
    (digit_logic s).gs_timeKeeper = s.gs_timeKeeper ∧
    (digit_logic s).gs_alarmKeeper = s.gs_alarmKeeper ∧
    (digit_logic s).alarm_on_off = s.alarm_on_off ∧
    (digit_logic s).switchTimeout = s.switchTimeout ∧
    (digit_logic s).initTimeout = s.initTimeout ∧
    (digit_logic s).alarm_tone = s.alarm_tone ∧
    (digit_logic s).prev_milliseconds = s.prev_milliseconds ∧
    (digit_logic s).seconds = s.seconds := by
  unfold digit_logic; simp

lemma tone_logic_zero (s : ClockState) (h : s.alarm_tone = 0) : tone_logic s = s := by
  unfold tone_logic; simp [h]

lemma tone_logic_patch (s : ClockState) (a b : Nat) :
    tone_logic { s with switchTimeout := a, initTimeout := b }
      = { tone_logic s with switchTimeout := a, initTimeout := b } := by
  unfold tone_logic; split_ifs <;> simp_all

lemma digit_logic_patch (s : ClockState) (a b : Nat) :
    digit_logic { s with switchTimeout := a, initTimeout := b }
      = { digit_logic s with switchTimeout := a, initTimeout := b } := by
  unfold digit_logic; simp

lemma control_roll_strongInv (t : Time)
    (h : t.one_minutes ≤ 10 ∧ t.ten_minutes ≤ 5 ∧ t.one_hours ≤ 10 ∧
      t.ten_hours ≤ 2 ∧ (t.ten_hours = 2 → t.one_hours ≤ 4) ∧
      (t.one_hours = 10 → t.ten_hours ≤ 1)) :
    strongInv (control_roll t) := by
  obtain ⟨om, tm, oh, th⟩ := t
  dsimp only at h
  unfold control_roll
  unfold carry_one_minutes
  dsimp only
  split_ifs with h1 <;>
    (unfold reset_ten_minutes; dsimp only; split_ifs) <;>
    (unfold carry_one_hours; dsimp only; split_ifs) <;>
    (unfold wrap_24 strongInv; dsimp only; split_ifs) <;> dsimp only <;> omega

lemma timer_roll_strongInv (t : Time)
    (h : t.one_minutes ≤ 10 ∧ t.ten_minutes ≤ 5 ∧ t.one_hours ≤ 9 ∧
      t.ten_hours ≤ 2 ∧ (t.ten_hours = 2 → t.one_hours ≤ 3)) :
    strongInv (timer_roll t) := by
  obtain ⟨om, tm, oh, th⟩ := t
  dsimp only at h
  unfold timer_roll
  unfold carry_one_minutes
  dsimp only
  split_ifs with h1 <;>
    (unfold carry_ten_minutes; dsimp only; split_ifs) <;>
    (unfold carry_one_hours; dsimp only; split_ifs) <;>
    (unfold wrap_24 strongInv; dsimp only; split_ifs) <;> dsimp only <;> omega

lemma control_inc_strongInv (mp hp : Bool) (t : Time) (h : strongInv t) :
    strongInv (control_inc mp hp t) := by
  obtain ⟨om, tm, oh, th⟩ := t
  rcases h with ⟨h1, h2, h3, h4, h5⟩
  dsimp only at h1 h2 h3 h4 h5
  have ha : (if mp then 0 else 1) ≤ 1 := by cases mp <;> simp
  have hb : (if hp then 0 else 1) ≤ 1 := by cases hp <;> simp
  unfold control_inc
  apply control_roll_strongInv
  dsimp only
  refine ⟨by omega, by omega, by omega, by omega, by omega, by omega⟩

lemma mroll_strongInv (t : Time) (h : strongInv t) : strongInv (mroll t) := by
  obtain ⟨om, tm, oh, th⟩ := t
  rcases h with ⟨h1, h2, h3, h4, h5⟩
  dsimp only at h1 h2 h3 h4 h5
  unfold mroll
  apply timer_roll_strongInv
  dsimp only
  exact ⟨by omega, by omega, by omega, by omega, by omega⟩

lemma timer_roll_fix (t : Time) (h : timeInv t) : timer_roll t = t := by
  obtain ⟨om, tm, oh, th⟩ := t
  rcases h with ⟨h1, h2, h3, h4⟩
  dsimp only at h1 h2 h3 h4
  unfold timer_roll carry_one_minutes
  dsimp only
  rw [if_neg (by omega)]
  unfold carry_ten_minutes
  dsimp only
  rw [if_neg (by omega)]
  unfold carry_one_hours
  dsimp only
  rw [if_neg (by omega)]
  unfold wrap_24
  dsimp only
  rw [if_neg (by omega)]

lemma strongInv_timeInv (t : Time) (h : strongInv t) : timeInv t := by
  rcases h with ⟨h1, h2, h3, h4, h5⟩
  exact ⟨h1, h2, h3, by omega⟩

lemma alarm_branch_keepers (s : ClockState) :
    (alarm_branch s).gs_timeKeeper = s.gs_timeKeeper ∧
    (alarm_branch s).gs_alarmKeeper = s.gs_alarmKeeper := by
  unfold alarm_branch; dsimp only; split_ifs <;> simp

lemma set_a_branch_tk (mp hp : Bool) (s : ClockState) :
    (set_a_branch mp hp s).gs_timeKeeper = s.gs_timeKeeper := by
  unfold set_a_branch; dsimp only; split_ifs <;> simp

lemma set_a_branch_ak (mp hp : Bool) (s : ClockState) :
    (set_a_branch mp hp s).gs_alarmKeeper = s.gs_alarmKeeper ∨
    (set_a_branch mp hp s).gs_alarmKeeper = control_inc mp hp s.gs_alarmKeeper := by
  unfold set_a_branch; dsimp only; split_ifs <;> simp

lemma set_t_branch_ak (mp hp : Bool) (s : ClockState) :
    (set_t_branch mp hp s).gs_alarmKeeper = s.gs_alarmKeeper := by
  unfold set_t_branch; dsimp only; split_ifs <;> simp

lemma set_t_branch_tk (mp hp : Bool) (s : ClockState) :
    (set_t_branch mp hp s).gs_timeKeeper = s.gs_timeKeeper ∨
    (set_t_branch mp hp s).gs_timeKeeper = control_inc mp hp s.gs_timeKeeper := by
  unfold set_t_branch; dsimp only; split_ifs <;> simp

lemma control_isr_tk (p : Pins) (s : ClockState) :
    (control_isr p s).gs_timeKeeper = s.gs_timeKeeper ∨
    (control_isr p s).gs_timeKeeper = control_inc p.minute p.hour s.gs_timeKeeper := by
  unfold control_isr
  rw [(digit_logic_frame _).1, (tone_logic_frame _).1]
  unfold switch_logic
  split_ifs
  · exact Or.inl (alarm_branch_keepers _).1
  · exact Or.inl (set_a_branch_tk _ _ _)
  · exact set_t_branch_tk _ _ _
  · exact Or.inl rfl

lemma control_isr_ak (p : Pins) (s : ClockState) :
    (control_isr p s).gs_alarmKeeper = s.gs_alarmKeeper ∨
    (control_isr p s).gs_alarmKeeper = control_inc p.minute p.hour s.gs_alarmKeeper := by
  unfold control_isr
  rw [(digit_logic_frame _).2.1, (tone_logic_frame _).2.1]
  unfold switch_logic
  split_ifs
  · exact Or.inl (alarm_branch_keepers _).2
  · exact set_a_branch_ak _ _ _
  · exact Or.inl (set_t_branch_ak _ _ _)
  · exact Or.inl rfl

lemma timer_core_char (s : ClockState) :
    timer_core s = { s with
      seconds := (tstep (s.seconds, s.gs_timeKeeper)).1,
      gs_timeKeeper := (tstep (s.seconds, s.gs_timeKeeper)).2 } := by
  unfold timer_core tstep mroll
  dsimp only
  split_ifs <;> simp_all

lemma alarm_eval_frame (s : ClockState) :
    (alarm_eval s).gs_timeKeeper = s.gs_timeKeeper ∧
    (alarm_eval s).gs_alarmKeeper = s.gs_alarmKeeper ∧
    (alarm_eval s).seconds = s.seconds ∧
    (alarm_eval s).alarm_on_off = s.alarm_on_off ∧
    (alarm_eval s).switchTimeout = s.switchTimeout ∧
    (alarm_eval s).initTimeout = s.initTimeout ∧
    (alarm_eval s).milliseconds = s.milliseconds ∧
    (alarm_eval s).digitSelect = s.digitSelect := by
  unfold alarm_eval; dsimp only; split_ifs <;> simp

lemma alarm_eval_off (s : ClockState) (h : s.alarm_on_off = OFF) : alarm_eval s = s := by
  unfold alarm_eval ON
  rw [h]
  simp [OFF]

lemma timer_isr_set (p : Pins) (s : ClockState) (h : p.set_t = false) :
    timer_isr p s = { s with seconds := 0 } := by
  simp [timer_isr, h]

lemma timer_isr_run (p : Pins) (s : ClockState) (h : p.set_t = true) :
    timer_isr p s = alarm_eval (timer_core s) := by
  simp [timer_isr, h]

lemma tstep_strongInv (x : Nat × Time) (h : strongInv x.2) : strongInv (tstep x).2 := by
  unfold tstep
  dsimp only
  split_ifs
  · exact mroll_strongInv _ h
  · rcases h with ⟨h1, h2, h3, h4, h5⟩
    exact timer_roll_strongInv _ ⟨by omega, h2, h3, h4, h5⟩

lemma Inv_control (p : Pins) (s : ClockState) (h : Inv s) : Inv (control_isr p s) := by
  constructor
  · rcases control_isr_tk p s with h1 | h1 <;> rw [h1]
    · exact h.1
    · exact control_inc_strongInv _ _ _ h.1
  · rcases control_isr_ak p s with h1 | h1 <;> rw [h1]
    · exact h.2
    · exact control_inc_strongInv _ _ _ h.2

lemma Inv_timer (p : Pins) (s : ClockState) (h : Inv s) : Inv (timer_isr p s) := by
  unfold timer_isr
  split_ifs with hp
  · exact ⟨h.1, h.2⟩
  · constructor
    · rw [(alarm_eval_frame _).1, timer_core_char]
      exact tstep_strongInv _ h.1
    · rw [(alarm_eval_frame _).2.1, timer_core_char]
      exact h.2

lemma Inv_init : Inv initState := by
  constructor <;> simp [initState, strongInv]

lemma Inv_step (e : Ev) (s : ClockState) (h : Inv s) : Inv (stepEv e s) := by
  cases e with
  | ctrl p => exact Inv_control p s h
  | tmr p => exact Inv_timer p s h

lemma Inv_run (l : List Ev) (s : ClockState) (h : Inv s) : Inv (run l s) := by
  induction l generalizing s with
  | nil => exact h
  | cons e l ih =>
    rw [run, List.foldl_cons]
    exact ih _ (Inv_step e s h)

lemma Inv_reachable (s : ClockState) (h : Reachable s) : Inv s := by
  rcases h with ⟨l, hl⟩
  rw [← hl]
  exact Inv_run l initState Inv_init

lemma rollover_spec_eq (t : Time)
    (h : t.one_minutes ≤ 10 ∧ t.ten_minutes ≤ 5 ∧ t.one_hours ≤ 9 ∧ t.ten_hours ≤ 2) :
    timer_roll t = spec_rollover t := by
  obtain ⟨om, tm, oh, th⟩ := t
  dsimp only at h
  unfold timer_roll spec_rollover
  unfold carry_one_minutes spec_carry_ones
  dsimp only
  split_ifs
  all_goals (unfold carry_ten_minutes spec_carry_tens; dsimp only)
  all_goals try split_ifs
  all_goals (unfold carry_one_hours spec_carry_hours; dsimp only)
  all_goals try split_ifs
  all_goals (unfold wrap_24 spec_wrap; dsimp only)
  all_goals try split_ifs
  all_goals (first | rfl | (simp_all; try omega) | omega)

lemma tstep_spec (sec : Nat) (t : Time) (hs : sec ≤ 59)
    (ht : strongInv t) : tstep (sec, t) = spec_seconds_step sec t := by
  have hm : (sec + 1) % 256 = sec + 1 := Nat.mod_eq_of_lt (by omega)
  rcases ht with ⟨h1, h2, h3, h4, h5⟩
  unfold tstep spec_seconds_step
  dsimp only
  rw [hm]
  split_ifs with hgt
  · unfold mroll
    rw [Prod.mk.injEq]
    refine ⟨rfl, ?_⟩
    have hmo : (t.one_minutes + 1) % 256 = t.one_minutes + 1 := Nat.mod_eq_of_lt (by omega)
    rw [hmo]
    exact rollover_spec_eq _ (by obtain ⟨om, tm, oh, th⟩ := t; dsimp only at *; exact ⟨by omega, h2, h3, h4⟩)
  · rw [Prod.mk.injEq]
    exact ⟨rfl, rollover_spec_eq _ ⟨by omega, h2, h3, h4⟩⟩

lemma timer_core_frame (s : ClockState) :
    (timer_core s).gs_alarmKeeper = s.gs_alarmKeeper ∧
    (timer_core s).alarm_on_off = s.alarm_on_off ∧
    (timer_core s).milliseconds = s.milliseconds ∧
    (timer_core s).prev_milliseconds = s.prev_milliseconds ∧
    (timer_core s).alarm_tone = s.alarm_tone ∧
    (timer_core s).switchTimeout = s.switchTimeout ∧
    (timer_core s).initTimeout = s.initTimeout ∧
    (timer_core s).digitSelect = s.digitSelect := by
  rw [timer_core_char]
  exact ⟨rfl, rfl, rfl, rfl, rfl, rfl, rfl, rfl⟩

lemma alarm_eval_match (u : ClockState) (hao : u.alarm_on_off = ON)
    (h1 : u.gs_alarmKeeper.ten_hours = u.gs_timeKeeper.ten_hours)
    (h2 : u.gs_alarmKeeper.one_hours = u.gs_timeKeeper.one_hours)
    (h3 : u.gs_alarmKeeper.ten_minutes = u.gs_timeKeeper.ten_minutes)
    (h4 : u.gs_alarmKeeper.one_minutes = u.gs_timeKeeper.one_minutes) :
    (u.seconds = 0 →
      (alarm_eval u).alarm_tone = 7 ∧ (alarm_eval u).prev_milliseconds = u.milliseconds) ∧
    (59 ≤ u.seconds → (alarm_eval u).alarm_tone = 0) := by
  unfold alarm_eval
  rw [if_pos hao, if_pos ⟨h1, h2, h3, h4⟩]
  dsimp only
  constructor
  · intro h0
    rw [if_pos h0]
    dsimp only
    rw [if_neg (by omega)]
    simp
  · intro h59
    rw [if_neg (show ¬u.seconds = 0 by omega)]
    rw [if_pos h59]

/-- C1: for every state reachable from the all-zero power-on state by any
sequence of millisecond-tick (`control_isr`) and seconds-tick (`timer_isr`)
invocations under arbitrary switch inputs, the current time `gs_timeKeeper`
satisfies `one_minutes ≤ 9`, `ten_minutes ≤ 5`, `one_hours ≤ 9` and
NOT(`ten_hours ≥ 2` AND `one_hours ≥ 4`) — the represented time is always
below 24:00 — and the same digit bounds hold for `gs_alarmKeeper`. -/
theorem C1_digit_range_invariant (s : ClockState) (h : Reachable s) :
    timeInv s.gs_timeKeeper ∧ timeInv s.gs_alarmKeeper := by
  have hi := Inv_reachable s h
  exact ⟨strongInv_timeInv _ hi.1, strongInv_timeInv _ hi.2⟩

/-- Witness for C1 at a concrete reachable state: one seconds tick and one
millisecond tick after power-on. -/
theorem C1_digit_range_invariant_witness :
    timeInv (run [Ev.tmr idlePins, Ev.ctrl alarmPins] initState).gs_timeKeeper ∧
    timeInv (run [Ev.tmr idlePins, Ev.ctrl alarmPins] initState).gs_alarmKeeper :=
  C1_digit_range_invariant _ ⟨[Ev.tmr idlePins, Ev.ctrl alarmPins], rfl⟩

/-- C9: a seconds-engine invocation with the time-set control asserted
(`set_t` pin low) sets `seconds` to 0 and leaves every other state
component — both keepers, `alarm_on_off`, `alarm_tone`,
`prev_milliseconds` and the rest — unchanged. -/
theorem C9_time_set_freezes_seconds (p : Pins) (s : ClockState)
    (h : p.set_t = false) : timer_isr p s = { s with seconds := 0 } :=
  timer_isr_set p s h

/-- Witness for C9 at a concrete state. -/
theorem C9_time_set_freezes_seconds_witness :
    timer_isr (setTPins true true) { initState with seconds := 17, alarm_tone := 3 }
      = { initState with seconds := 0, alarm_tone := 3 } :=
  C9_time_set_freezes_seconds _ _ rfl

/-- C3: with time-set not asserted, every seconds-engine invocation
computes exactly the spec's §4.2 division-free rollover in the stated
order (`spec_seconds_step`, modelled from the spec text), given the
(reachable-state) digit bounds; moreover the two spec scenarios hold:
19:59 at seconds 60 rolls to 20:00 with seconds 0, and 23:59 rolls
via the joint wrap to 00:00. -/
theorem C3_rollover_algorithm :
    (∀ (p : Pins) (s : ClockState), p.set_t = true → s.seconds ≤ 59 →
      strongInv s.gs_timeKeeper →
      ((timer_isr p s).seconds, (timer_isr p s).gs_timeKeeper)
        = spec_seconds_step s.seconds s.gs_timeKeeper) ∧
    ((timer_isr idlePins { initState with gs_timeKeeper := ⟨9, 5, 9, 1⟩, seconds := 59 }).seconds = 0 ∧
     (timer_isr idlePins { initState with gs_timeKeeper := ⟨9, 5, 9, 1⟩, seconds := 59 }).gs_timeKeeper
       = ⟨0, 0, 0, 2⟩) ∧
    ((timer_isr idlePins { initState with gs_timeKeeper := ⟨9, 5, 3, 2⟩, seconds := 59 }).seconds = 0 ∧
     (timer_isr idlePins { initState with gs_timeKeeper := ⟨9, 5, 3, 2⟩, seconds := 59 }).gs_timeKeeper
       = ⟨0, 0, 0, 0⟩) := by
  refine ⟨?_, ⟨by decide, by decide⟩, ⟨by decide, by decide⟩⟩
  intro p s hp hs ht
  rw [timer_isr_run p s hp]
  rw [(alarm_eval_frame _).2.2.1, (alarm_eval_frame _).1, timer_core_char]
  dsimp only
  rw [tstep_spec s.seconds s.gs_timeKeeper hs ht]

/-- Witness for C3's universally quantified part at the power-on state. -/
theorem C3_rollover_algorithm_witness :
    ((timer_isr idlePins initState).seconds, (timer_isr idlePins initState).gs_timeKeeper)
      = spec_seconds_step initState.seconds initState.gs_timeKeeper :=
  C3_rollover_algorithm.1 idlePins initState rfl (by decide)
    (by simp [initState, strongInv])

/-- C5: when time-set is not asserted, the alarm is armed, and all four
digit fields of `gs_alarmKeeper` equal the corresponding fields of the
(just-updated) `gs_timeKeeper`, a seconds-engine invocation ending with
`seconds = 0` sets `alarm_tone` to 7 and resets the tone timestamp
`prev_milliseconds` to the current `milliseconds`; one ending with
`seconds ≥ 59` sets `alarm_tone` to 0; and (given the `seconds ≤ 59`
invariant) the invocation ends with `seconds = 0` exactly when the
previous `seconds` was 59, i.e. the activation fires once per matching
minute, at its first second. -/
theorem C5_alarm_activation (p : Pins) (s : ClockState)
    (hp : p.set_t = true) (hao : s.alarm_on_off = ON)
    (h1 : s.gs_alarmKeeper.ten_hours = (timer_isr p s).gs_timeKeeper.ten_hours)
    (h2 : s.gs_alarmKeeper.one_hours = (timer_isr p s).gs_timeKeeper.one_hours)
    (h3 : s.gs_alarmKeeper.ten_minutes = (timer_isr p s).gs_timeKeeper.ten_minutes)
    (h4 : s.gs_alarmKeeper.one_minutes = (timer_isr p s).gs_timeKeeper.one_minutes) :
    ((timer_isr p s).seconds = 0 →
      (timer_isr p s).alarm_tone = 7 ∧
      (timer_isr p s).prev_milliseconds = s.milliseconds) ∧
    (59 ≤ (timer_isr p s).seconds → (timer_isr p s).alarm_tone = 0) ∧
    (s.seconds ≤ 59 → ((timer_isr p s).seconds = 0 ↔ s.seconds = 59)) := by
  have hframe := alarm_eval_frame (timer_core s)
  have hcf := timer_core_frame s
  rw [timer_isr_run p s hp] at h1 h2 h3 h4 ⊢
  rw [hframe.1] at h1 h2 h3 h4
  have h1a : (timer_core s).gs_alarmKeeper.ten_hours = (timer_core s).gs_timeKeeper.ten_hours := by
    rw [hcf.1]; exact h1
  have h2a : (timer_core s).gs_alarmKeeper.one_hours = (timer_core s).gs_timeKeeper.one_hours := by
    rw [hcf.1]; exact h2
  have h3a : (timer_core s).gs_alarmKeeper.ten_minutes = (timer_core s).gs_timeKeeper.ten_minutes := by
    rw [hcf.1]; exact h3
  have h4a : (timer_core s).gs_alarmKeeper.one_minutes = (timer_core s).gs_timeKeeper.one_minutes := by
    rw [hcf.1]; exact h4
  have hao2 : (timer_core s).alarm_on_off = ON := by rw [hcf.2.1]; exact hao
  obtain ⟨g1, g2⟩ := alarm_eval_match (timer_core s) hao2 h1a h2a h3a h4a
  refine ⟨?_, ?_, ?_⟩
  · intro h0
    rw [hframe.2.2.1] at h0
    obtain ⟨ha, hb⟩ := g1 h0
    exact ⟨ha, by rw [hb, hcf.2.2.1]⟩
  · intro h59
    rw [hframe.2.2.1] at h59
    exact g2 h59
  · intro hs
    rw [hframe.2.2.1, timer_core_char]
    dsimp only
    unfold tstep
    dsimp only
    have hm : (s.seconds + 1) % 256 = s.seconds + 1 := Nat.mod_eq_of_lt (by omega)
    rw [hm]
    split_ifs <;> (constructor <;> intro <;> omega)

/-- Witness for C5: alarm armed at 00:01, current time rolls into 00:01 at
second 60, so the invocation ends with seconds 0 and the tone starts. -/
theorem C5_alarm_activation_witness :
    ((timer_isr idlePins
        { initState with alarm_on_off := 1, gs_alarmKeeper := ⟨1, 0, 0, 0⟩, seconds := 59 }).seconds = 0 →
      (timer_isr idlePins
        { initState with alarm_on_off := 1, gs_alarmKeeper := ⟨1, 0, 0, 0⟩, seconds := 59 }).alarm_tone = 7 ∧
      (timer_isr idlePins
        { initState with alarm_on_off := 1, gs_alarmKeeper := ⟨1, 0, 0, 0⟩, seconds := 59 }).prev_milliseconds
        = ({ initState with alarm_on_off := 1, gs_alarmKeeper := ⟨1, 0, 0, 0⟩, seconds := 59 } : ClockState).milliseconds) ∧
    (59 ≤ (timer_isr idlePins
        { initState with alarm_on_off := 1, gs_alarmKeeper := ⟨1, 0, 0, 0⟩, seconds := 59 }).seconds →
      (timer_isr idlePins
        { initState with alarm_on_off := 1, gs_alarmKeeper := ⟨1, 0, 0, 0⟩, seconds := 59 }).alarm_tone = 0) ∧
    (({ initState with alarm_on_off := 1, gs_alarmKeeper := ⟨1, 0, 0, 0⟩, seconds := 59 } : ClockState).seconds ≤ 59 →
      ((timer_isr idlePins
        { initState with alarm_on_off := 1, gs_alarmKeeper := ⟨1, 0, 0, 0⟩, seconds := 59 }).seconds = 0 ↔
        ({ initState with alarm_on_off := 1, gs_alarmKeeper := ⟨1, 0, 0, 0⟩, seconds := 59 } : ClockState).seconds = 59)) :=
  C5_alarm_activation idlePins _ rfl rfl (by decide) (by decide) (by decide) (by decide)

lemma control_isr_setT_accept (mp hp : Bool) (h : mp = false ∨ hp = false)
    (s : ClockState) (h1 : s.switchTimeout + 1 > s.initTimeout) (h2 : s.switchTimeout ≤ 254) :
    (control_isr (setTPins mp hp) s).gs_timeKeeper = control_inc mp hp s.gs_timeKeeper ∧
    (control_isr (setTPins mp hp) s).switchTimeout = 0 ∧
    (control_isr (setTPins mp hp) s).initTimeout = ramp s.initTimeout ∧
    (control_isr (setTPins mp hp) s).gs_alarmKeeper = s.gs_alarmKeeper ∧
    (control_isr (setTPins mp hp) s).alarm_on_off = s.alarm_on_off := by
  unfold control_isr
  rw [switch_logic_setT]
  rw [set_t_branch_accept mp hp h _ (by dsimp only; omega) (by dsimp only; omega)]
  refine ⟨?_, ?_, ?_, ?_, ?_⟩
  · rw [(digit_logic_frame _).1, (tone_logic_frame _).1]
  · rw [(digit_logic_frame _).2.2.2.1, (tone_logic_frame _).2.2.2.1]
  · rw [(digit_logic_frame _).2.2.2.2.1, (tone_logic_frame _).2.2.2.2.1]
  · rw [(digit_logic_frame _).2.1, (tone_logic_frame _).2.1]
  · rw [(digit_logic_frame _).2.2.1, (tone_logic_frame _).2.2.1]

lemma control_isr_setA_accept (mp hp : Bool) (h : mp = false ∨ hp = false)
    (s : ClockState) (h1 : s.switchTimeout + 1 > s.initTimeout) (h2 : s.switchTimeout ≤ 254) :
    (control_isr (setAIncPins mp hp) s).gs_alarmKeeper = control_inc mp hp s.gs_alarmKeeper ∧
    (control_isr (setAIncPins mp hp) s).switchTimeout = 0 ∧
    (control_isr (setAIncPins mp hp) s).initTimeout = ramp s.initTimeout ∧
    (control_isr (setAIncPins mp hp) s).gs_timeKeeper = s.gs_timeKeeper ∧
    (control_isr (setAIncPins mp hp) s).alarm_on_off = s.alarm_on_off := by
  unfold control_isr
  rw [switch_logic_setAInc]
  rw [set_a_branch_accept mp hp h _ (by dsimp only; omega) (by dsimp only; omega)]
  refine ⟨?_, ?_, ?_, ?_, ?_⟩
  · rw [(digit_logic_frame _).2.1, (tone_logic_frame _).2.1]
  · rw [(digit_logic_frame _).2.2.2.1, (tone_logic_frame _).2.2.2.1]
  · rw [(digit_logic_frame _).2.2.2.2.1, (tone_logic_frame _).2.2.2.2.1]
  · rw [(digit_logic_frame _).1, (tone_logic_frame _).1]
  · rw [(digit_logic_frame _).2.2.1, (tone_logic_frame _).2.2.1]

/-- C2 counterexample: from 19:59 in time-set mode (hold already past
the threshold), an accepted manual minute increment yields 19:00 — the
`ten_minutes` overflow does NOT carry into `one_hours` — whereas the
seconds engine's §4.2 rollover of the same minute increment (`mroll`)
yields 20:00; the same 19:00 results for the alarm keeper in alarm-set
mode.  So the manual increment is not the §4.2 algorithm. -/
theorem C2_counterexample :
    (control_isr (setTPins false true)
        { initState with gs_timeKeeper := ⟨9, 5, 9, 1⟩, switchTimeout := 126 }).gs_timeKeeper
      = ⟨0, 0, 9, 1⟩ ∧
    (control_isr (setAIncPins false true)
        { initState with gs_alarmKeeper := ⟨9, 5, 9, 1⟩, switchTimeout := 126 }).gs_alarmKeeper
      = ⟨0, 0, 9, 1⟩ ∧
    mroll ⟨9, 5, 9, 1⟩ = ⟨0, 0, 0, 2⟩ ∧
    (⟨0, 0, 9, 1⟩ : Time) ≠ (⟨0, 0, 0, 2⟩ : Time) := by
  refine ⟨by decide, by decide, by decide, by decide⟩

/-- C2 amended: an accepted manual increment transforms `gs_timeKeeper`
(time-set mode) and `gs_alarmKeeper` (alarm-set mode) by exactly the same
algorithm `control_inc` — identical for both keepers — namely: add one to
`one_minutes`/`one_hours` for the pressed switches, carry `one_minutes`
overflow into `ten_minutes`, reset `ten_minutes > 5` to 0 WITHOUT carrying
into `one_hours`, carry `one_hours` overflow into `ten_hours`, then apply
the joint 24:00 wrap; in particular a manual minute increment at 19:59
gives 19:00, not 20:00. -/
theorem C2_manual_increment_amended (mp hp : Bool) (h : mp = false ∨ hp = false)
    (s : ClockState) (h1 : s.switchTimeout + 1 > s.initTimeout) (h2 : s.switchTimeout ≤ 254) :
    (control_isr (setTPins mp hp) s).gs_timeKeeper = control_inc mp hp s.gs_timeKeeper ∧
    (control_isr (setAIncPins mp hp) s).gs_alarmKeeper = control_inc mp hp s.gs_alarmKeeper ∧
    control_inc false true ⟨9, 5, 9, 1⟩ = ⟨0, 0, 9, 1⟩ :=
  ⟨(control_isr_setT_accept mp hp h s h1 h2).1,
   (control_isr_setA_accept mp hp h s h1 h2).1,
   by decide⟩

/-- Witness for the amended C2 at a concrete accepted press. -/
theorem C2_manual_increment_amended_witness :
    (control_isr (setTPins false true)
        { initState with gs_timeKeeper := ⟨9, 5, 9, 1⟩, switchTimeout := 126 }).gs_timeKeeper
      = control_inc false true (⟨9, 5, 9, 1⟩ : Time) ∧
    (control_isr (setAIncPins false true)
        { initState with gs_timeKeeper := ⟨9, 5, 9, 1⟩, switchTimeout := 126 }).gs_alarmKeeper
      = control_inc false true
          ({ initState with gs_timeKeeper := ⟨9, 5, 9, 1⟩, switchTimeout := 126 } : ClockState).gs_alarmKeeper ∧
    control_inc false true ⟨9, 5, 9, 1⟩ = ⟨0, 0, 9, 1⟩ :=
  C2_manual_increment_amended false true (Or.inl rfl) _ (by decide) (by decide)

/-- C10: when a set mode is active and both the minute and hour increment
switches are pressed at an accepted tick, the single action adds one to
both `one_minutes` and `one_hours` of the selected keeper before the
combined rollover pass, and resets the hold counter once — both increments
happen together in one action. -/
theorem C10_simultaneous_increments (s : ClockState)
    (h1 : s.switchTimeout + 1 > s.initTimeout) (h2 : s.switchTimeout ≤ 254) :
    ((control_isr (setTPins false false) s).gs_timeKeeper
        = control_roll { s.gs_timeKeeper with
            one_minutes := (s.gs_timeKeeper.one_minutes + 1) % 256,
            one_hours := (s.gs_timeKeeper.one_hours + 1) % 256 } ∧
      (control_isr (setTPins false false) s).switchTimeout = 0) ∧
    ((control_isr (setAIncPins false false) s).gs_alarmKeeper
        = control_roll { s.gs_alarmKeeper with
            one_minutes := (s.gs_alarmKeeper.one_minutes + 1) % 256,
            one_hours := (s.gs_alarmKeeper.one_hours + 1) % 256 } ∧
      (control_isr (setAIncPins false false) s).switchTimeout = 0) := by
  have ht := control_isr_setT_accept false false (Or.inl rfl) s h1 h2
  have ha := control_isr_setA_accept false false (Or.inl rfl) s h1 h2
  refine ⟨⟨?_, ht.2.1⟩, ⟨?_, ha.2.1⟩⟩
  · rw [ht.1]; simp [control_inc]
  · rw [ha.1]; simp [control_inc]

/-- The 23:59 state with the hold counter past the threshold, used as the
concrete input of several witnesses. -/
def s2359 : ClockState :=
  { initState with gs_timeKeeper := ⟨9, 5, 3, 2⟩, gs_alarmKeeper := ⟨9, 5, 3, 2⟩, switchTimeout := 126 }

/-- Witness for C10 at a concrete state (23:59 both keepers). -/
theorem C10_simultaneous_increments_witness :
    ((control_isr (setTPins false false) s2359).gs_timeKeeper
        = control_roll { s2359.gs_timeKeeper with
            one_minutes := (s2359.gs_timeKeeper.one_minutes + 1) % 256,
            one_hours := (s2359.gs_timeKeeper.one_hours + 1) % 256 } ∧
      (control_isr (setTPins false false) s2359).switchTimeout = 0) ∧
    ((control_isr (setAIncPins false false) s2359).gs_alarmKeeper
        = control_roll { s2359.gs_alarmKeeper with
            one_minutes := (s2359.gs_alarmKeeper.one_minutes + 1) % 256,
            one_hours := (s2359.gs_alarmKeeper.one_hours + 1) % 256 } ∧
      (control_isr (setAIncPins false false) s2359).switchTimeout = 0) :=
  C10_simultaneous_increments s2359 (by decide) (by decide)

lemma tstep_sec (t : Time) (ht : timeInv t) (k : Nat) (hk : k ≤ 59) :
    tstep^[k] (0, t) = (k, t) := by
  induction k with
  | zero => rfl
  | succ n ih =>
    rw [Function.iterate_succ_apply', ih (by omega)]
    unfold tstep
    dsimp only
    rw [Nat.mod_eq_of_lt (by omega), if_neg (by omega), timer_roll_fix t ht]

lemma tstep_minute (t : Time) (ht : timeInv t) : tstep^[60] (0, t) = (0, mroll t) := by
  rw [show (60 : Nat) = 59 + 1 from rfl, Function.iterate_succ_apply',
    tstep_sec t ht 59 (by omega)]
  unfold tstep
  dsimp only
  rw [Nat.mod_eq_of_lt (by omega), if_pos (by omega)]

lemma mroll_iter_strongInv (t : Time) (h : strongInv t) (n : Nat) :
    strongInv (mroll^[n] t) := by
  induction n with
  | zero => exact h
  | succ n ih => rw [Function.iterate_succ_apply']; exact mroll_strongInv _ ih

lemma tstep_day (n : Nat) (t : Time) (h : strongInv t) :
    tstep^[60 * n] (0, t) = (0, mroll^[n] t) := by
  induction n with
  | zero => rfl
  | succ n ih =>
    rw [show 60 * (n + 1) = 60 + 60 * n from by ring, Function.iterate_add_apply, ih,
      tstep_minute _ (strongInv_timeInv _ (mroll_iter_strongInv t h n)),
      Function.iterate_succ_apply' mroll n t]

set_option maxRecDepth 8000 in
lemma mroll_day : mroll^[1440] (⟨0, 0, 0, 0⟩ : Time) = ⟨0, 0, 0, 0⟩ := by
  have key : ∀ (k : Nat) (a b c : Time), mroll^[60] a = b → mroll^[60 * k] b = c →
      mroll^[60 * (k + 1)] a = c := by
    intro k a b c hab hbc
    rw [show 60 * (k + 1) = 60 * k + 60 from by ring, Function.iterate_add_apply, hab, hbc]
  have e0 : mroll^[60] (⟨0, 0, 0, 0⟩ : Time) = ⟨0, 0, 1, 0⟩ := by decide
  have e1 : mroll^[60] (⟨0, 0, 1, 0⟩ : Time) = ⟨0, 0, 2, 0⟩ := by decide
  have e2 : mroll^[60] (⟨0, 0, 2, 0⟩ : Time) = ⟨0, 0, 3, 0⟩ := by decide
  have e3 : mroll^[60] (⟨0, 0, 3, 0⟩ : Time) = ⟨0, 0, 4, 0⟩ := by decide
  have e4 : mroll^[60] (⟨0, 0, 4, 0⟩ : Time) = ⟨0, 0, 5, 0⟩ := by decide
  have e5 : mroll^[60] (⟨0, 0, 5, 0⟩ : Time) = ⟨0, 0, 6, 0⟩ := by decide
  have e6 : mroll^[60] (⟨0, 0, 6, 0⟩ : Time) = ⟨0, 0, 7, 0⟩ := by decide
  have e7 : mroll^[60] (⟨0, 0, 7, 0⟩ : Time) = ⟨0, 0, 8, 0⟩ := by decide
  have e8 : mroll^[60] (⟨0, 0, 8, 0⟩ : Time) = ⟨0, 0, 9, 0⟩ := by decide
  have e9 : mroll^[60] (⟨0, 0, 9, 0⟩ : Time) = ⟨0, 0, 0, 1⟩ := by decide
  have e10 : mroll^[60] (⟨0, 0, 0, 1⟩ : Time) = ⟨0, 0, 1, 1⟩ := by decide
  have e11 : mroll^[60] (⟨0, 0, 1, 1⟩ : Time) = ⟨0, 0, 2, 1⟩ := by decide
  have e12 : mroll^[60] (⟨0, 0, 2, 1⟩ : Time) = ⟨0, 0, 3, 1⟩ := by decide
  have e13 : mroll^[60] (⟨0, 0, 3, 1⟩ : Time) = ⟨0, 0, 4, 1⟩ := by decide
  have e14 : mroll^[60] (⟨0, 0, 4, 1⟩ : Time) = ⟨0, 0, 5, 1⟩ := by decide
  have e15 : mroll^[60] (⟨0, 0, 5, 1⟩ : Time) = ⟨0, 0, 6, 1⟩ := by decide
  have e16 : mroll^[60] (⟨0, 0, 6, 1⟩ : Time) = ⟨0, 0, 7, 1⟩ := by decide
  have e17 : mroll^[60] (⟨0, 0, 7, 1⟩ : Time) = ⟨0, 0, 8, 1⟩ := by decide
  have e18 : mroll^[60] (⟨0, 0, 8, 1⟩ : Time) = ⟨0, 0, 9, 1⟩ := by decide
  have e19 : mroll^[60] (⟨0, 0, 9, 1⟩ : Time) = ⟨0, 0, 0, 2⟩ := by decide
  have e20 : mroll^[60] (⟨0, 0, 0, 2⟩ : Time) = ⟨0, 0, 1, 2⟩ := by decide
  have e21 : mroll^[60] (⟨0, 0, 1, 2⟩ : Time) = ⟨0, 0, 2, 2⟩ := by decide
  have e22 : mroll^[60] (⟨0, 0, 2, 2⟩ : Time) = ⟨0, 0, 3, 2⟩ := by decide
  have e23 : mroll^[60] (⟨0, 0, 3, 2⟩ : Time) = ⟨0, 0, 0, 0⟩ := by decide
  have d1 : mroll^[60 * 1] (⟨0, 0, 3, 2⟩ : Time) = ⟨0, 0, 0, 0⟩ := by
    rw [show 60 * 1 = 60 from rfl]; exact e23
  have d2 := key 1 _ _ _ e22 d1
  have d3 := key 2 _ _ _ e21 d2
  have d4 := key 3 _ _ _ e20 d3
  have d5 := key 4 _ _ _ e19 d4
  have d6 := key 5 _ _ _ e18 d5
  have d7 := key 6 _ _ _ e17 d6
  have d8 := key 7 _ _ _ e16 d7
  have d9 := key 8 _ _ _ e15 d8
  have d10 := key 9 _ _ _ e14 d9
  have d11 := key 10 _ _ _ e13 d10
  have d12 := key 11 _ _ _ e12 d11
  have d13 := key 12 _ _ _ e11 d12
  have d14 := key 13 _ _ _ e10 d13
  have d15 := key 14 _ _ _ e9 d14
  have d16 := key 15 _ _ _ e8 d15
  have d17 := key 16 _ _ _ e7 d16
  have d18 := key 17 _ _ _ e6 d17
  have d19 := key 18 _ _ _ e5 d18
  have d20 := key 19 _ _ _ e4 d19
  have d21 := key 20 _ _ _ e3 d20
  have d22 := key 21 _ _ _ e2 d21
  have d23 := key 22 _ _ _ e1 d22
  have d24 := key 23 _ _ _ e0 d23
  exact d24

lemma timer_isr_off_char (p : Pins) (s : ClockState) (hp : p.set_t = true)
    (ha : s.alarm_on_off = OFF) :
    timer_isr p s = { s with
      seconds := (tstep (s.seconds, s.gs_timeKeeper)).1,
      gs_timeKeeper := (tstep (s.seconds, s.gs_timeKeeper)).2 } := by
  rw [timer_isr_run p s hp,
    alarm_eval_off _ (by rw [(timer_core_frame s).2.1]; exact ha), timer_core_char]

lemma timer_isr_off_iter (p : Pins) (s : ClockState) (hp : p.set_t = true)
    (ha : s.alarm_on_off = OFF) (n : Nat) :
    (timer_isr p)^[n] s = { s with
      seconds := (tstep^[n] (s.seconds, s.gs_timeKeeper)).1,
      gs_timeKeeper := (tstep^[n] (s.seconds, s.gs_timeKeeper)).2 } := by
  induction n with
  | zero =>
    rcases s with ⟨d, st, iT, ms, pms, sec, tk, ak, ao, tone⟩
    rfl
  | succ n ih =>
    rw [Function.iterate_succ_apply', ih,
      timer_isr_off_char p _ hp (by exact ha)]
    dsimp only
    rw [Prod.mk.eta, Function.iterate_succ_apply' tstep n (s.seconds, s.gs_timeKeeper)]

/-- C7: with time-set not asserted and the alarm disarmed, applying the
seconds-engine step 86400 times from `gs_timeKeeper = 00:00` and
`seconds = 0` returns `gs_timeKeeper` to 00:00 with `seconds = 0` — the
full-day round trip. -/
theorem C7_full_day_roundtrip (p : Pins) (s : ClockState) (hp : p.set_t = true)
    (ht : s.gs_timeKeeper = ⟨0, 0, 0, 0⟩) (hs : s.seconds = 0)
    (ha : s.alarm_on_off = OFF) :
    ((timer_isr p)^[86400] s).gs_timeKeeper = ⟨0, 0, 0, 0⟩ ∧
    ((timer_isr p)^[86400] s).seconds = 0 := by
  have key : tstep^[86400] ((0 : Nat), (⟨0, 0, 0, 0⟩ : Time)) = (0, ⟨0, 0, 0, 0⟩) := by
    rw [show (86400 : Nat) = 60 * 1440 from rfl,
      tstep_day 1440 ⟨0, 0, 0, 0⟩ (by simp [strongInv]), mroll_day]
  have h := timer_isr_off_iter p s hp ha 86400
  rw [hs, ht, key] at h
  rw [h]
  exact ⟨rfl, rfl⟩

/-- Witness for C7: the power-on state satisfies all the hypotheses. -/
theorem C7_full_day_roundtrip_witness :
    ((timer_isr idlePins)^[86400] initState).gs_timeKeeper = ⟨0, 0, 0, 0⟩ ∧
    ((timer_isr idlePins)^[86400] initState).seconds = 0 :=
  C7_full_day_roundtrip idlePins initState rfl rfl rfl rfl

lemma td_frame (s : ClockState) :
    (digit_logic (tone_logic s)).gs_timeKeeper = s.gs_timeKeeper ∧
    (digit_logic (tone_logic s)).gs_alarmKeeper = s.gs_alarmKeeper ∧
    (digit_logic (tone_logic s)).alarm_on_off = s.alarm_on_off ∧
    (digit_logic (tone_logic s)).switchTimeout = s.switchTimeout ∧
    (digit_logic (tone_logic s)).initTimeout = s.initTimeout := by
  refine ⟨?_, ?_, ?_, ?_, ?_⟩
  · rw [(digit_logic_frame _).1, (tone_logic_frame _).1]
  · rw [(digit_logic_frame _).2.1, (tone_logic_frame _).2.1]
  · rw [(digit_logic_frame _).2.2.1, (tone_logic_frame _).2.2.1]
  · rw [(digit_logic_frame _).2.2.2.1, (tone_logic_frame _).2.2.2.1]
  · rw [(digit_logic_frame _).2.2.2.2.1, (tone_logic_frame _).2.2.2.2.1]

lemma td_tone_zero (s : ClockState) (h : s.alarm_tone = 0) :
    (digit_logic (tone_logic s)).alarm_tone = 0 := by
  rw [tone_logic_zero _ h, (digit_logic_frame _).2.2.2.2.2.1]
  exact h

lemma ctrl_alarm_diff (t : ClockState) (a b : Nat) (ha : a ≤ 73) :
    control_isr alarmPins { t with switchTimeout := a, initTimeout := b }
      = { control_isr idlePins t with switchTimeout := a + 1, initTimeout := b } := by
  obtain ⟨d, st, iT, ms, pms, sec, tk, ak, ao, tn⟩ := t
  unfold control_isr
  rw [switch_logic_alarm, switch_logic_idle]
  dsimp only
  rw [alarm_branch_noflip _ (by dsimp only; omega) (by dsimp only; omega)]
  unfold tone_logic digit_logic
  dsimp only
  split_ifs <;> rfl

lemma ctrl_alarm_flip_proj (t : ClockState) (h : t.switchTimeout = 74) :
    (control_isr alarmPins t).alarm_on_off = (if t.alarm_on_off = 1 then 0 else 1) ∧
    (control_isr alarmPins t).switchTimeout = 75 ∧
    (t.alarm_on_off = 1 → (control_isr alarmPins t).alarm_tone = 0) := by
  unfold control_isr
  rw [switch_logic_alarm, alarm_branch_flip _ (by dsimp only; exact h)]
  dsimp only
  split_ifs with hao
  · refine ⟨?_, ?_, fun _ => ?_⟩
    · rw [(td_frame _).2.2.1]
    · rw [(td_frame _).2.2.2.1]
    · exact td_tone_zero _ rfl
  · refine ⟨?_, ?_, fun hc => absurd hc hao⟩
    · rw [(td_frame _).2.2.1]
    · rw [(td_frame _).2.2.2.1]

lemma ctrl_alarm_sustain (t : ClockState) (h : 75 ≤ t.switchTimeout) :
    (control_isr alarmPins t).alarm_on_off = t.alarm_on_off ∧
    75 ≤ (control_isr alarmPins t).switchTimeout ∧
    (t.alarm_tone = 0 → (control_isr alarmPins t).alarm_tone = 0) := by
  unfold control_isr
  rw [switch_logic_alarm]
  rcases Nat.lt_or_ge 75 t.switchTimeout with hgt | hle
  · rw [alarm_branch_high _ (by dsimp only; omega)]
    refine ⟨?_, ?_, fun hz => ?_⟩
    · rw [(td_frame _).2.2.1]
    · rw [(td_frame _).2.2.2.1]; dsimp only; omega
    · exact td_tone_zero _ hz
  · have h75 : t.switchTimeout = 75 := by omega
    rw [alarm_branch_noflip _ (by dsimp only; omega) (by dsimp only; omega)]
    refine ⟨?_, ?_, fun hz => ?_⟩
    · rw [(td_frame _).2.2.1]
    · rw [(td_frame _).2.2.2.1]; dsimp only; omega
    · exact td_tone_zero _ hz

lemma ctrl_idle_proj (t : ClockState) :
    (control_isr idlePins t).gs_timeKeeper = t.gs_timeKeeper ∧
    (control_isr idlePins t).gs_alarmKeeper = t.gs_alarmKeeper ∧
    (control_isr idlePins t).alarm_on_off = t.alarm_on_off ∧
    (control_isr idlePins t).switchTimeout = 0 ∧
    (control_isr idlePins t).initTimeout = INIT_DELAY := by
  unfold control_isr
  rw [switch_logic_idle]
  refine ⟨?_, ?_, ?_, ?_, ?_⟩
  · rw [(td_frame _).1]
  · rw [(td_frame _).2.1]
  · rw [(td_frame _).2.2.1]
  · rw [(td_frame _).2.2.2.1]
  · rw [(td_frame _).2.2.2.2]

lemma ctrl_idle_iter (t : ClockState) (n : Nat) :
    ((control_isr idlePins)^[n] t).gs_timeKeeper = t.gs_timeKeeper ∧
    ((control_isr idlePins)^[n] t).gs_alarmKeeper = t.gs_alarmKeeper ∧
    ((control_isr idlePins)^[n] t).alarm_on_off = t.alarm_on_off := by
  induction n with
  | zero => exact ⟨rfl, rfl, rfl⟩
  | succ n ih =>
    rw [Function.iterate_succ_apply']
    exact ⟨by rw [(ctrl_idle_proj _).1, ih.1], by rw [(ctrl_idle_proj _).2.1, ih.2.1],
      by rw [(ctrl_idle_proj _).2.2.1, ih.2.2]⟩

lemma ctrl_setA_hold_proj (t : ClockState) :
    (control_isr setAPins t).gs_timeKeeper = t.gs_timeKeeper ∧
    (control_isr setAPins t).gs_alarmKeeper = t.gs_alarmKeeper ∧
    (control_isr setAPins t).alarm_on_off = t.alarm_on_off ∧
    (control_isr setAPins t).switchTimeout = (t.switchTimeout + 1) % 256 ∧
    (t.alarm_tone = 0 → (control_isr setAPins t).alarm_tone = 0) := by
  unfold control_isr
  rw [switch_logic_setA]
  refine ⟨?_, ?_, ?_, ?_, fun hz => ?_⟩
  · rw [(td_frame _).1]
  · rw [(td_frame _).2.1]
  · rw [(td_frame _).2.2.1]
  · rw [(td_frame _).2.2.2.1]
  · exact td_tone_zero _ hz

lemma ctrl_setA_hold_iter (t : ClockState) (n : Nat) (hst : t.switchTimeout + n ≤ 255) :
    ((control_isr setAPins)^[n] t).gs_timeKeeper = t.gs_timeKeeper ∧
    ((control_isr setAPins)^[n] t).gs_alarmKeeper = t.gs_alarmKeeper ∧
    ((control_isr setAPins)^[n] t).alarm_on_off = t.alarm_on_off ∧
    ((control_isr setAPins)^[n] t).switchTimeout = t.switchTimeout + n ∧
    (t.alarm_tone = 0 → ((control_isr setAPins)^[n] t).alarm_tone = 0) := by
  induction n with
  | zero => exact ⟨rfl, rfl, rfl, rfl, fun hz => hz⟩
  | succ n ih =>
    obtain ⟨i1, i2, i3, i4, i5⟩ := ih (by omega)
    rw [Function.iterate_succ_apply']
    have hp := ctrl_setA_hold_proj ((control_isr setAPins)^[n] t)
    refine ⟨by rw [hp.1, i1], by rw [hp.2.1, i2], by rw [hp.2.2.1, i3], ?_, fun hz => ?_⟩
    · rw [hp.2.2.2.1, i4, Nat.mod_eq_of_lt (by omega)]
      omega
    · exact hp.2.2.2.2 (i5 hz)

lemma set_t_branch_hold (s : ClockState) :
    set_t_branch true true s
      = { s with switchTimeout := (s.switchTimeout + 1) % 256, initTimeout := INIT_DELAY } := by
  unfold set_t_branch
  dsimp only
  split_ifs <;> simp_all

lemma ctrl_setT_hold_proj (t : ClockState) :
    (control_isr (setTPins true true) t).gs_timeKeeper = t.gs_timeKeeper ∧
    (control_isr (setTPins true true) t).gs_alarmKeeper = t.gs_alarmKeeper ∧
    (control_isr (setTPins true true) t).alarm_on_off = t.alarm_on_off ∧
    (control_isr (setTPins true true) t).switchTimeout = (t.switchTimeout + 1) % 256 := by
  unfold control_isr
  rw [switch_logic_setT, set_t_branch_hold]
  exact ⟨(td_frame _).1, (td_frame _).2.1, (td_frame _).2.2.1, (td_frame _).2.2.2.1⟩

lemma ctrl_setT_hold_iter (t : ClockState) (n : Nat) (hst : t.switchTimeout + n ≤ 255) :
    ((control_isr (setTPins true true))^[n] t).gs_timeKeeper = t.gs_timeKeeper ∧
    ((control_isr (setTPins true true))^[n] t).gs_alarmKeeper = t.gs_alarmKeeper ∧
    ((control_isr (setTPins true true))^[n] t).alarm_on_off = t.alarm_on_off ∧
    ((control_isr (setTPins true true))^[n] t).switchTimeout = t.switchTimeout + n := by
  induction n with
  | zero => exact ⟨rfl, rfl, rfl, rfl⟩
  | succ n ih =>
    obtain ⟨i1, i2, i3, i4⟩ := ih (by omega)
    rw [Function.iterate_succ_apply']
    have hp := ctrl_setT_hold_proj ((control_isr (setTPins true true))^[n] t)
    refine ⟨by rw [hp.1, i1], by rw [hp.2.1, i2], by rw [hp.2.2.1, i3], ?_⟩
    rw [hp.2.2.2, i4, Nat.mod_eq_of_lt (by omega)]
    omega

lemma ctrl_setT_diff (t : ClockState) (mp hp : Bool) (hmh : mp = false ∨ hp = false)
    (b : Nat) (hst : t.switchTimeout + 1 ≤ b) (h2 : t.switchTimeout ≤ 254) :
    control_isr (setTPins mp hp) { t with initTimeout := b }
      = { control_isr (setTPins true true) t with initTimeout := b } := by
  obtain ⟨d, st, iT, ms, pms, sec, tk, ak, ao, tn⟩ := t
  unfold control_isr
  rw [switch_logic_setT, switch_logic_setT]
  dsimp only
  rw [set_t_branch_noaccept mp hp hmh _ (by dsimp only at *; omega) (by dsimp only at *; omega),
    set_t_branch_hold]
  dsimp only at hst h2 ⊢
  rw [Nat.mod_eq_of_lt (show st + 1 < 256 by omega)]
  unfold tone_logic digit_logic
  dsimp only
  split_ifs <;> rfl

lemma setT_press_phase (mp hp : Bool) (hmh : mp = false ∨ hp = false)
    (s : ClockState) (h0 : s.switchTimeout = 0) (T : Nat) (hiT : s.initTimeout = T)
    (hT : T ≤ 254) (m : Nat) (hm : m ≤ T) :
    (control_isr (setTPins mp hp))^[m] s
      = { (control_isr (setTPins true true))^[m] s with initTimeout := T } := by
  induction m with
  | zero =>
    simp only [Function.iterate_zero_apply]
    rw [← hiT]
  | succ m ih =>
    have hhold := ctrl_setT_hold_iter s m (by omega)
    rw [Function.iterate_succ_apply', ih (by omega),
      ctrl_setT_diff _ mp hp hmh T (by rw [hhold.2.2.2, h0]; omega)
        (by rw [hhold.2.2.2, h0]; omega),
      Function.iterate_succ_apply' (control_isr (setTPins true true)) m s]

lemma setT_press_accept (mp hp : Bool) (hmh : mp = false ∨ hp = false)
    (s : ClockState) (h0 : s.switchTimeout = 0) (T : Nat) (hiT : s.initTimeout = T)
    (hT : T ≤ 254) :
    ((control_isr (setTPins mp hp))^[T + 1] s).gs_timeKeeper
        = control_inc mp hp s.gs_timeKeeper ∧
    ((control_isr (setTPins mp hp))^[T + 1] s).gs_alarmKeeper = s.gs_alarmKeeper ∧
    ((control_isr (setTPins mp hp))^[T + 1] s).alarm_on_off = s.alarm_on_off ∧
    ((control_isr (setTPins mp hp))^[T + 1] s).switchTimeout = 0 ∧
    ((control_isr (setTPins mp hp))^[T + 1] s).initTimeout = ramp T := by
  have hhold := ctrl_setT_hold_iter s T (by omega)
  rw [Function.iterate_succ_apply', setT_press_phase mp hp hmh s h0 T hiT hT T (by omega)]
  have hacc := control_isr_setT_accept mp hp hmh
    { (control_isr (setTPins true true))^[T] s with initTimeout := T }
    (by dsimp only; rw [hhold.2.2.2, h0]; omega)
    (by dsimp only; rw [hhold.2.2.2, h0]; omega)
  refine ⟨?_, ?_, ?_, ?_, ?_⟩
  · rw [hacc.1]; dsimp only; rw [hhold.1]
  · rw [hacc.2.2.2.1]; dsimp only; rw [hhold.2.1]
  · rw [hacc.2.2.2.2]; dsimp only; rw [hhold.2.2.1]
  · exact hacc.2.1
  · rw [hacc.2.2.1]

lemma alarm_press_short (s : ClockState) (h0 : s.switchTimeout = 0) (n : Nat) (hn : n ≤ 74) :
    (control_isr alarmPins)^[n] s
      = { (control_isr idlePins)^[n] s with switchTimeout := n, initTimeout := s.initTimeout } := by
  induction n with
  | zero =>
    simp only [Function.iterate_zero_apply]
    rw [← h0]
  | succ n ih =>
    rw [Function.iterate_succ_apply', ih (by omega),
      ctrl_alarm_diff ((control_isr idlePins)^[n] s) n s.initTimeout (by omega),
      Function.iterate_succ_apply' (control_isr idlePins) n s]

lemma alarm_press_flip (s : ClockState) (h0 : s.switchTimeout = 0) (hao : s.alarm_on_off ≤ 1) :
    ((control_isr alarmPins)^[75] s).alarm_on_off = 1 - s.alarm_on_off ∧
    75 ≤ ((control_isr alarmPins)^[75] s).switchTimeout ∧
    (s.alarm_on_off = 1 → ((control_isr alarmPins)^[75] s).alarm_tone = 0) := by
  have h74 := alarm_press_short s h0 74 (by omega)
  have hidle := ctrl_idle_iter s 74
  rw [show (75 : Nat) = 74 + 1 from rfl, Function.iterate_succ_apply', h74]
  have hflip := ctrl_alarm_flip_proj
    { (control_isr idlePins)^[74] s with switchTimeout := 74, initTimeout := s.initTimeout }
    (by dsimp only)
  have hao2 : ({ (control_isr idlePins)^[74] s with
      switchTimeout := 74, initTimeout := s.initTimeout } : ClockState).alarm_on_off
      = s.alarm_on_off := by
    dsimp only
    exact hidle.2.2
  refine ⟨?_, ?_, fun h1 => ?_⟩
  · rw [hflip.1, hao2]
    rcases Nat.lt_or_ge s.alarm_on_off 1 with hlt | hge
    · rw [if_neg (by omega)]; omega
    · rw [if_pos (by omega)]; omega
  · rw [hflip.2.1]
  · exact hflip.2.2 (by rw [hao2]; exact h1)

lemma alarm_press_sustain_aux (s : ClockState) (h0 : s.switchTimeout = 0)
    (hao : s.alarm_on_off ≤ 1) (m : Nat) :
    ((control_isr alarmPins)^[75 + m] s).alarm_on_off = 1 - s.alarm_on_off ∧
    75 ≤ ((control_isr alarmPins)^[75 + m] s).switchTimeout ∧
    (s.alarm_on_off = 1 → ((control_isr alarmPins)^[75 + m] s).alarm_tone = 0) := by
  induction m with
  | zero => exact alarm_press_flip s h0 hao
  | succ m ih =>
    rw [show 75 + (m + 1) = (75 + m) + 1 from rfl, Function.iterate_succ_apply']
    have hsus := ctrl_alarm_sustain ((control_isr alarmPins)^[75 + m] s) ih.2.1
    exact ⟨by rw [hsus.1, ih.1], hsus.2.1, fun h1 => hsus.2.2 (ih.2.2 h1)⟩

lemma alarm_press_sustain (s : ClockState) (h0 : s.switchTimeout = 0)
    (hao : s.alarm_on_off ≤ 1) (n : Nat) (hn : 75 ≤ n) :
    ((control_isr alarmPins)^[n] s).alarm_on_off = 1 - s.alarm_on_off ∧
    (s.alarm_on_off = 1 → ((control_isr alarmPins)^[n] s).alarm_tone = 0) := by
  obtain ⟨m, rfl⟩ : ∃ m, n = 75 + m := ⟨n - 75, by omega⟩
  exact ⟨(alarm_press_sustain_aux s h0 hao m).1, (alarm_press_sustain_aux s h0 hao m).2.2⟩

lemma T_seq_succ (k : Nat) : T_seq (k + 1) = ramp (T_seq k) :=
  Function.iterate_succ_apply' ramp k INIT_DELAY

lemma T_seq_bounds (k : Nat) : 75 ≤ T_seq k ∧ T_seq k ≤ 125 ∧ T_seq k % 5 = 0 := by
  induction k with
  | zero =>
    have h : T_seq 0 = 125 := rfl
    omega
  | succ k ih =>
    rw [T_seq_succ]
    unfold ramp MIN_DELAY RAMP_DELAY
    split_ifs <;> omega

lemma setAIncPins_hold : setAIncPins true true = setAPins := rfl

lemma set_a_branch_hold (s : ClockState) :
    set_a_branch true true s
      = { s with switchTimeout := (s.switchTimeout + 1) % 256, initTimeout := INIT_DELAY } := by
  unfold set_a_branch
  dsimp only
  split_ifs <;> simp_all

lemma ctrl_setA_inc_diff (t : ClockState) (mp hp : Bool) (hmh : mp = false ∨ hp = false)
    (b : Nat) (hst : t.switchTimeout + 1 ≤ b) (h2 : t.switchTimeout ≤ 254) :
    control_isr (setAIncPins mp hp) { t with initTimeout := b }
      = { control_isr setAPins t with initTimeout := b } := by
  obtain ⟨d, st, iT, ms, pms, sec, tk, ak, ao, tn⟩ := t
  unfold control_isr
  rw [switch_logic_setAInc, switch_logic_setA]
  dsimp only
  rw [set_a_branch_noaccept mp hp hmh _ (by dsimp only at *; omega) (by dsimp only at *; omega)]
  dsimp only at hst h2 ⊢
  rw [Nat.mod_eq_of_lt (show st + 1 < 256 by omega)]
  unfold tone_logic digit_logic
  dsimp only
  split_ifs <;> rfl

lemma setA_press_phase (mp hp : Bool) (hmh : mp = false ∨ hp = false)
    (s : ClockState) (h0 : s.switchTimeout = 0) (T : Nat) (hiT : s.initTimeout = T)
    (hT : T ≤ 254) (m : Nat) (hm : m ≤ T) :
    (control_isr (setAIncPins mp hp))^[m] s
      = { (control_isr setAPins)^[m] s with initTimeout := T } := by
  induction m with
  | zero =>
    simp only [Function.iterate_zero_apply]
    rw [← hiT]
  | succ m ih =>
    have hhold := ctrl_setA_hold_iter s m (by omega)
    rw [Function.iterate_succ_apply', ih (by omega),
      ctrl_setA_inc_diff _ mp hp hmh T (by rw [hhold.2.2.2.1, h0]; omega)
        (by rw [hhold.2.2.2.1, h0]; omega),
      Function.iterate_succ_apply' (control_isr setAPins) m s]

lemma setA_press_accept (mp hp : Bool) (hmh : mp = false ∨ hp = false)
    (s : ClockState) (h0 : s.switchTimeout = 0) (T : Nat) (hiT : s.initTimeout = T)
    (hT : T ≤ 254) :
    ((control_isr (setAIncPins mp hp))^[T + 1] s).gs_alarmKeeper
        = control_inc mp hp s.gs_alarmKeeper ∧
    ((control_isr (setAIncPins mp hp))^[T + 1] s).gs_timeKeeper = s.gs_timeKeeper ∧
    ((control_isr (setAIncPins mp hp))^[T + 1] s).alarm_on_off = s.alarm_on_off ∧
    ((control_isr (setAIncPins mp hp))^[T + 1] s).switchTimeout = 0 ∧
    ((control_isr (setAIncPins mp hp))^[T + 1] s).initTimeout = ramp T := by
  have hhold := ctrl_setA_hold_iter s T (by omega)
  rw [Function.iterate_succ_apply', setA_press_phase mp hp hmh s h0 T hiT hT T (by omega)]
  have hacc := control_isr_setA_accept mp hp hmh
    { (control_isr setAPins)^[T] s with initTimeout := T }
    (by dsimp only; rw [hhold.2.2.2.1, h0]; omega)
    (by dsimp only; rw [hhold.2.2.2.1, h0]; omega)
  refine ⟨?_, ?_, ?_, ?_, ?_⟩
  · rw [hacc.1]; dsimp only; rw [hhold.2.1]
  · rw [hacc.2.2.2.1]; dsimp only; rw [hhold.1]
  · rw [hacc.2.2.2.2]; dsimp only; rw [hhold.2.2.1]
  · exact hacc.2.1
  · rw [hacc.2.2.1]

lemma setT_press_phase_proj (mp hp : Bool) (hmh : mp = false ∨ hp = false)
    (s : ClockState) (h0 : s.switchTimeout = 0) (T : Nat) (hiT : s.initTimeout = T)
    (hT : T ≤ 254) (m : Nat) (hm : m ≤ T) :
    ((control_isr (setTPins mp hp))^[m] s).gs_timeKeeper = s.gs_timeKeeper ∧
    ((control_isr (setTPins mp hp))^[m] s).gs_alarmKeeper = s.gs_alarmKeeper ∧
    ((control_isr (setTPins mp hp))^[m] s).alarm_on_off = s.alarm_on_off ∧
    ((control_isr (setTPins mp hp))^[m] s).switchTimeout = m ∧
    ((control_isr (setTPins mp hp))^[m] s).initTimeout = T := by
  have hhold := ctrl_setT_hold_iter s m (by omega)
  rw [setT_press_phase mp hp hmh s h0 T hiT hT m hm]
  refine ⟨?_, ?_, ?_, ?_, rfl⟩
  · dsimp only; rw [hhold.1]
  · dsimp only; rw [hhold.2.1]
  · dsimp only; rw [hhold.2.2.1]
  · dsimp only; rw [hhold.2.2.2, h0]; omega

lemma setA_press_phase_proj (mp hp : Bool) (hmh : mp = false ∨ hp = false)
    (s : ClockState) (h0 : s.switchTimeout = 0) (T : Nat) (hiT : s.initTimeout = T)
    (hT : T ≤ 254) (m : Nat) (hm : m ≤ T) :
    ((control_isr (setAIncPins mp hp))^[m] s).gs_timeKeeper = s.gs_timeKeeper ∧
    ((control_isr (setAIncPins mp hp))^[m] s).gs_alarmKeeper = s.gs_alarmKeeper ∧
    ((control_isr (setAIncPins mp hp))^[m] s).alarm_on_off = s.alarm_on_off ∧
    ((control_isr (setAIncPins mp hp))^[m] s).switchTimeout = m ∧
    ((control_isr (setAIncPins mp hp))^[m] s).initTimeout = T := by
  have hhold := ctrl_setA_hold_iter s m (by omega)
  rw [setA_press_phase mp hp hmh s h0 T hiT hT m hm]
  refine ⟨?_, ?_, ?_, ?_, rfl⟩
  · dsimp only; rw [hhold.1]
  · dsimp only; rw [hhold.2.1]
  · dsimp only; rw [hhold.2.2.1]
  · dsimp only; rw [hhold.2.2.2.1, h0]; omega

lemma acceptTick_succ (k : Nat) : acceptTick (k + 1) = (T_seq k + 1) + acceptTick k := rfl

lemma setT_run (mp hp : Bool) (hmh : mp = false ∨ hp = false)
    (s : ClockState) (h0 : s.switchTimeout = 0) (hiT : s.initTimeout = INIT_DELAY) (k : Nat) :
    ((control_isr (setTPins mp hp))^[acceptTick k] s).switchTimeout = 0 ∧
    ((control_isr (setTPins mp hp))^[acceptTick k] s).initTimeout = T_seq k ∧
    ∀ m, m ≤ T_seq k →
      ((control_isr (setTPins mp hp))^[acceptTick k + m] s).gs_timeKeeper
        = (control_inc mp hp)^[k] s.gs_timeKeeper := by
  induction k with
  | zero =>
    have hA : acceptTick 0 = 0 := rfl
    have hT : T_seq 0 = INIT_DELAY := rfl
    have h125 : INIT_DELAY = 125 := rfl
    rw [hA, hT]
    refine ⟨by simpa using h0, by simpa using hiT, fun m hm => ?_⟩
    rw [Nat.zero_add]
    rw [(setT_press_phase_proj mp hp hmh s h0 INIT_DELAY hiT (by omega) m (by omega)).1]
    simp
  | succ k ih =>
    obtain ⟨ist, iiT, itk⟩ := ih
    have htk0 := itk 0 (by omega)
    rw [Nat.add_zero] at htk0
    have hTb := T_seq_bounds k
    have hacc := setT_press_accept mp hp hmh ((control_isr (setTPins mp hp))^[acceptTick k] s)
      ist (T_seq k) iiT (by omega)
    have hsplit : ∀ x : ClockState,
        (control_isr (setTPins mp hp))^[acceptTick (k + 1)] x
          = (control_isr (setTPins mp hp))^[T_seq k + 1]
              ((control_isr (setTPins mp hp))^[acceptTick k] x) := by
      intro x
      rw [acceptTick_succ, Function.iterate_add_apply]
    have hst1 : ((control_isr (setTPins mp hp))^[acceptTick (k + 1)] s).switchTimeout = 0 := by
      rw [hsplit]; exact hacc.2.2.2.1
    have hiT1 : ((control_isr (setTPins mp hp))^[acceptTick (k + 1)] s).initTimeout
        = T_seq (k + 1) := by
      rw [hsplit, hacc.2.2.2.2, T_seq_succ]
    have htk1 : ((control_isr (setTPins mp hp))^[acceptTick (k + 1)] s).gs_timeKeeper
        = (control_inc mp hp)^[k + 1] s.gs_timeKeeper := by
      rw [hsplit, hacc.1, htk0, Function.iterate_succ_apply' (control_inc mp hp) k]
    refine ⟨hst1, hiT1, fun m hm => ?_⟩
    have hTb1 := T_seq_bounds (k + 1)
    rw [Nat.add_comm (acceptTick (k + 1)) m, Function.iterate_add_apply]
    rw [(setT_press_phase_proj mp hp hmh _ hst1 (T_seq (k + 1)) hiT1 (by omega) m hm).1]
    exact htk1

lemma setA_run (mp hp : Bool) (hmh : mp = false ∨ hp = false)
    (s : ClockState) (h0 : s.switchTimeout = 0) (hiT : s.initTimeout = INIT_DELAY) (k : Nat) :
    ((control_isr (setAIncPins mp hp))^[acceptTick k] s).switchTimeout = 0 ∧
    ((control_isr (setAIncPins mp hp))^[acceptTick k] s).initTimeout = T_seq k ∧
    ∀ m, m ≤ T_seq k →
      ((control_isr (setAIncPins mp hp))^[acceptTick k + m] s).gs_alarmKeeper
        = (control_inc mp hp)^[k] s.gs_alarmKeeper := by
  induction k with
  | zero =>
    have hA : acceptTick 0 = 0 := rfl
    have hT : T_seq 0 = INIT_DELAY := rfl
    have h125 : INIT_DELAY = 125 := rfl
    rw [hA, hT]
    refine ⟨by simpa using h0, by simpa using hiT, fun m hm => ?_⟩
    rw [Nat.zero_add]
    rw [(setA_press_phase_proj mp hp hmh s h0 INIT_DELAY hiT (by omega) m (by omega)).2.1]
    simp
  | succ k ih =>
    obtain ⟨ist, iiT, itk⟩ := ih
    have htk0 := itk 0 (by omega)
    rw [Nat.add_zero] at htk0
    have hTb := T_seq_bounds k
    have hacc := setA_press_accept mp hp hmh ((control_isr (setAIncPins mp hp))^[acceptTick k] s)
      ist (T_seq k) iiT (by omega)
    have hsplit : ∀ x : ClockState,
        (control_isr (setAIncPins mp hp))^[acceptTick (k + 1)] x
          = (control_isr (setAIncPins mp hp))^[T_seq k + 1]
              ((control_isr (setAIncPins mp hp))^[acceptTick k] x) := by
      intro x
      rw [acceptTick_succ, Function.iterate_add_apply]
    have hst1 : ((control_isr (setAIncPins mp hp))^[acceptTick (k + 1)] s).switchTimeout = 0 := by
      rw [hsplit]; exact hacc.2.2.2.1
    have hiT1 : ((control_isr (setAIncPins mp hp))^[acceptTick (k + 1)] s).initTimeout
        = T_seq (k + 1) := by
      rw [hsplit, hacc.2.2.2.2, T_seq_succ]
    have htk1 : ((control_isr (setAIncPins mp hp))^[acceptTick (k + 1)] s).gs_alarmKeeper
        = (control_inc mp hp)^[k + 1] s.gs_alarmKeeper := by
      rw [hsplit, hacc.1, htk0, Function.iterate_succ_apply' (control_inc mp hp) k]
    refine ⟨hst1, hiT1, fun m hm => ?_⟩
    have hTb1 := T_seq_bounds (k + 1)
    rw [Nat.add_comm (acceptTick (k + 1)) m, Function.iterate_add_apply]
    rw [(setA_press_phase_proj mp hp hmh _ hst1 (T_seq (k + 1)) hiT1 (by omega) m hm).2.1]
    exact htk1

lemma alarm_high_iter (t : ClockState) (h : 75 ≤ t.switchTimeout) (n : Nat) :
    ((control_isr alarmPins)^[n] t).alarm_on_off = t.alarm_on_off ∧
    75 ≤ ((control_isr alarmPins)^[n] t).switchTimeout := by
  induction n with
  | zero => exact ⟨rfl, h⟩
  | succ n ih =>
    rw [Function.iterate_succ_apply']
    have hs := ctrl_alarm_sustain ((control_isr alarmPins)^[n] t) ih.2
    exact ⟨by rw [hs.1, ih.1], hs.2.1⟩

/-- C4 counterexample: the debounce hold counter `switchTimeout` is shared
between the switch branches and is not reset when the asserted control
changes, so from the reachable state obtained by holding the alarm-set
mode switch alone for 74 ticks, an alarm-toggle press asserted for a
single tick — far fewer than any debounce threshold — already flips
`alarm_on_off`.  This refutes the claim that, from every reachable state
of the debounce variables, a press shorter than the threshold produces no
state change. -/
theorem C4_counterexample :
    ((control_isr alarmPins)^[1] ((control_isr setAPins)^[74] initState)).alarm_on_off = 1 ∧
    initState.alarm_on_off = 0 ∧ 1 < MIN_DELAY := by
  have hh := ctrl_setA_hold_iter initState 74 (by decide)
  have hflip := ctrl_alarm_flip_proj ((control_isr setAPins)^[74] initState)
    (by rw [hh.2.2.2.1]; decide)
  refine ⟨?_, rfl, by decide⟩
  rw [Function.iterate_one, hflip.1, hh.2.2.1]
  decide

/-- C6 counterexample: holding the alarm-set mode switch alone for 80
ticks drives the shared hold counter past `MIN_DELAY`; a subsequent
continuous alarm-toggle assertion of 100 ticks (≥ the 75-tick threshold)
then never sees the counter equal to `MIN_DELAY` and never flips
`alarm_on_off` at all — the maximal toggle-assertion interval contains
zero flips, not exactly one. -/
theorem C6_counterexample :
    ((control_isr alarmPins)^[100] ((control_isr setAPins)^[80] initState)).alarm_on_off = 0 ∧
    initState.alarm_on_off = 0 ∧ MIN_DELAY ≤ 100 := by
  have hh := ctrl_setA_hold_iter initState 80 (by decide)
  have hi := alarm_high_iter ((control_isr setAPins)^[80] initState)
    (by rw [hh.2.2.2.1]; decide) 100
  refine ⟨?_, rfl, by decide⟩
  rw [hi.1, hh.2.2.1]
  rfl

/-- C4 amended: restricted to presses that begin with the shared hold
counter at zero (as after a tick with no control asserted).  Then:
(1) an alarm-toggle press of `n ≤ 74` ticks leaves the state identical to
the no-press run except for the two debounce counters — no time or alarm
digit change, no armed flip, no tone change; (2) held exactly
`MIN_DELAY` = 75 ticks it flips `alarm_on_off` exactly once; (3) however
long it stays held it still flips exactly once, never twice; (4) an
increment press in time-set or alarm-set mode with repeat threshold `T`
changes neither keeper nor the armed flag during its first `T` ticks;
(5) at tick `T + 1` it applies exactly one `control_inc` to the selected
keeper — a single action, never two on the same sample. -/
theorem C4_debounce_amended :
    (∀ (s : ClockState) (n : Nat), s.switchTimeout = 0 → n ≤ 74 →
      (control_isr alarmPins)^[n] s
        = { (control_isr idlePins)^[n] s with
            switchTimeout := n, initTimeout := s.initTimeout }) ∧
    (∀ s : ClockState, s.switchTimeout = 0 → s.alarm_on_off ≤ 1 →
      ((control_isr alarmPins)^[MIN_DELAY] s).alarm_on_off = 1 - s.alarm_on_off) ∧
    (∀ (s : ClockState) (n : Nat), s.switchTimeout = 0 → s.alarm_on_off ≤ 1 →
      MIN_DELAY ≤ n →
      ((control_isr alarmPins)^[n] s).alarm_on_off = 1 - s.alarm_on_off) ∧
    (∀ (mp hp : Bool), mp = false ∨ hp = false → ∀ (s : ClockState) (T m : Nat),
      s.switchTimeout = 0 → s.initTimeout = T → T ≤ 254 → m ≤ T →
      ((control_isr (setTPins mp hp))^[m] s).gs_timeKeeper = s.gs_timeKeeper ∧
      ((control_isr (setTPins mp hp))^[m] s).gs_alarmKeeper = s.gs_alarmKeeper ∧
      ((control_isr (setTPins mp hp))^[m] s).alarm_on_off = s.alarm_on_off ∧
      ((control_isr (setAIncPins mp hp))^[m] s).gs_timeKeeper = s.gs_timeKeeper ∧
      ((control_isr (setAIncPins mp hp))^[m] s).gs_alarmKeeper = s.gs_alarmKeeper ∧
      ((control_isr (setAIncPins mp hp))^[m] s).alarm_on_off = s.alarm_on_off) ∧
    (∀ (mp hp : Bool), mp = false ∨ hp = false → ∀ (s : ClockState) (T : Nat),
      s.switchTimeout = 0 → s.initTimeout = T → T ≤ 254 →
      ((control_isr (setTPins mp hp))^[T + 1] s).gs_timeKeeper
        = control_inc mp hp s.gs_timeKeeper ∧
      ((control_isr (setAIncPins mp hp))^[T + 1] s).gs_alarmKeeper
        = control_inc mp hp s.gs_alarmKeeper) := by
  refine ⟨?_, ?_, ?_, ?_, ?_⟩
  · intro s n h0 hn
    exact alarm_press_short s h0 n hn
  · intro s h0 hao
    exact (alarm_press_flip s h0 hao).1
  · intro s n h0 hao hn
    exact (alarm_press_sustain s h0 hao n hn).1
  · intro mp hp hmh s T m h0 hiT hT hm
    have ht := setT_press_phase_proj mp hp hmh s h0 T hiT hT m hm
    have ha := setA_press_phase_proj mp hp hmh s h0 T hiT hT m hm
    exact ⟨ht.1, ht.2.1, ht.2.2.1, ha.1, ha.2.1, ha.2.2.1⟩
  · intro mp hp hmh s T h0 hiT hT
    exact ⟨(setT_press_accept mp hp hmh s h0 T hiT hT).1,
      (setA_press_accept mp hp hmh s h0 T hiT hT).1⟩

/-- Witness for the amended C4 at concrete inputs: a 10-tick toggle press
from power-on changes nothing but the counters; a 75-tick press flips the
armed flag; a 200-tick press still flips it only once; a 100-tick minute
press in time-set mode leaves the keepers alone; at tick 126 it applies
exactly one increment. -/
theorem C4_debounce_amended_witness :
    ((control_isr alarmPins)^[10] initState
      = { (control_isr idlePins)^[10] initState with
          switchTimeout := 10, initTimeout := initState.initTimeout }) ∧
    ((control_isr alarmPins)^[MIN_DELAY] initState).alarm_on_off
      = 1 - initState.alarm_on_off ∧
    ((control_isr alarmPins)^[200] initState).alarm_on_off = 1 - initState.alarm_on_off ∧
    ((control_isr (setTPins false true))^[100] initState).gs_timeKeeper
      = initState.gs_timeKeeper ∧
    ((control_isr (setTPins false true))^[126] initState).gs_timeKeeper
      = control_inc false true initState.gs_timeKeeper :=
  ⟨C4_debounce_amended.1 initState 10 rfl (by omega),
   C4_debounce_amended.2.1 initState rfl (by decide),
   C4_debounce_amended.2.2.1 initState 200 rfl (by decide) (by decide),
   (C4_debounce_amended.2.2.2.1 false true (Or.inl rfl) initState 125 100 rfl (by decide)
      (by decide) (by decide)).1,
   (C4_debounce_amended.2.2.2.2 false true (Or.inl rfl) initState 125 rfl (by decide)
      (by decide)).1⟩

/-- C6 amended: during every maximal alarm-toggle assertion interval that
begins with the shared hold counter at zero, `alarm_on_off` does not flip
before tick `MIN_DELAY` = 75, has flipped exactly once at every tick from
75 on (so it flips at tick 75 and never again however long the control
stays held), and whenever that flip disarms the alarm (`alarm_on_off`
was 1), `alarm_tone` is 0 from the same tick on, regardless of
tone-period timing. -/
theorem C6_toggle_amended (s : ClockState) (h0 : s.switchTimeout = 0)
    (hao : s.alarm_on_off ≤ 1) :
    (∀ n, n < MIN_DELAY → ((control_isr alarmPins)^[n] s).alarm_on_off = s.alarm_on_off) ∧
    (∀ n, MIN_DELAY ≤ n →
      ((control_isr alarmPins)^[n] s).alarm_on_off = 1 - s.alarm_on_off) ∧
    (∀ n, MIN_DELAY ≤ n → s.alarm_on_off = 1 →
      ((control_isr alarmPins)^[n] s).alarm_tone = 0) := by
  refine ⟨fun n hn => ?_, fun n hn => (alarm_press_sustain s h0 hao n hn).1,
    fun n hn h1 => (alarm_press_sustain s h0 hao n hn).2 h1⟩
  rw [alarm_press_short s h0 n (by revert hn; unfold MIN_DELAY; omega)]
  dsimp only
  exact (ctrl_idle_iter s n).2.2

/-- Witness for the amended C6: from power-on (alarm disarmed), a 74-tick
press does not flip, while at ticks 75 and 300 the flag has flipped
exactly once. -/
theorem C6_toggle_amended_witness :
    (((control_isr alarmPins)^[74] initState).alarm_on_off = initState.alarm_on_off) ∧
    (((control_isr alarmPins)^[75] initState).alarm_on_off = 1 - initState.alarm_on_off) ∧
    (((control_isr alarmPins)^[300] initState).alarm_on_off = 1 - initState.alarm_on_off) :=
  ⟨(C6_toggle_amended initState rfl (by decide)).1 74 (by decide),
   (C6_toggle_amended initState rfl (by decide)).2.1 75 (by decide),
   (C6_toggle_amended initState rfl (by decide)).2.1 300 (by decide)⟩

/-- C8: the repeat threshold of an uninterrupted increment hold starts at
`INIT_DELAY` = 125, drops by `RAMP_DELAY` = 5 after each accepted
increment while above the floor `MIN_DELAY` = 75, stays put at the floor,
and never goes below it; consequently the inter-repeat intervals
`T_seq k + 1` strictly decrease toward the floor interval and never go
below it.  Moreover, in the actual run (either set mode, hold started
with the counters reset), the `k`-th accepted increment fires exactly
`T_seq k + 1` ticks after the `(k-1)`-th: after `acceptTick k` ticks the
selected keeper has received exactly `k` increments and receives no
further one for the next `T_seq k` ticks. -/
theorem C8_autorepeat_ramp :
    T_seq 0 = INIT_DELAY ∧
    (∀ k, MIN_DELAY < T_seq k → T_seq (k + 1) = T_seq k - RAMP_DELAY) ∧
    (∀ k, T_seq k ≤ MIN_DELAY → T_seq (k + 1) = T_seq k) ∧
    (∀ k, MIN_DELAY ≤ T_seq k) ∧
    (∀ k, MIN_DELAY < T_seq k → T_seq (k + 1) + 1 < T_seq k + 1) ∧
    (∀ k, MIN_DELAY + 1 ≤ T_seq k + 1) ∧
    (∀ (mp hp : Bool), mp = false ∨ hp = false → ∀ s : ClockState,
      s.switchTimeout = 0 → s.initTimeout = INIT_DELAY → ∀ k,
      ((control_isr (setTPins mp hp))^[acceptTick k] s).initTimeout = T_seq k ∧
      ((control_isr (setTPins mp hp))^[acceptTick k] s).switchTimeout = 0 ∧
      (∀ m, m ≤ T_seq k →
        ((control_isr (setTPins mp hp))^[acceptTick k + m] s).gs_timeKeeper
          = (control_inc mp hp)^[k] s.gs_timeKeeper) ∧
      ((control_isr (setAIncPins mp hp))^[acceptTick k] s).initTimeout = T_seq k ∧
      ((control_isr (setAIncPins mp hp))^[acceptTick k] s).switchTimeout = 0 ∧
      (∀ m, m ≤ T_seq k →
        ((control_isr (setAIncPins mp hp))^[acceptTick k + m] s).gs_alarmKeeper
          = (control_inc mp hp)^[k] s.gs_alarmKeeper)) := by
  have hramp : ∀ k, T_seq (k + 1) = ramp (T_seq k) := T_seq_succ
  refine ⟨rfl, ?_, ?_, ?_, ?_, ?_, ?_⟩
  · intro k hk
    rw [hramp k]
    unfold ramp
    rw [if_pos hk]
  · intro k hk
    rw [hramp k]
    unfold ramp
    rw [if_neg (by omega)]
  · intro k
    exact (T_seq_bounds k).1
  · intro k hk
    have hb := T_seq_bounds k
    rw [hramp k]
    unfold ramp MIN_DELAY RAMP_DELAY at *
    rw [if_pos hk]
    omega
  · intro k
    have hb := T_seq_bounds k
    unfold MIN_DELAY at *
    omega
  · intro mp hp hmh s h0 hiT k
    have ht := setT_run mp hp hmh s h0 hiT k
    have ha := setA_run mp hp hmh s h0 hiT k
    exact ⟨ht.2.1, ht.1, ht.2.2, ha.2.1, ha.1, ha.2.2⟩

/-- Witness for C8 at concrete inputs: the first two thresholds and the
keeper contents around the first accepted increment of a minute hold in
time-set mode from power-on. -/
theorem C8_autorepeat_ramp_witness :
    (MIN_DELAY < T_seq 0 → T_seq 1 = T_seq 0 - RAMP_DELAY) ∧
    MIN_DELAY ≤ T_seq 1 ∧
    ((control_isr (setTPins false true))^[acceptTick 1] initState).initTimeout = T_seq 1 ∧
    ((control_isr (setTPins false true))^[acceptTick 1] initState).switchTimeout = 0 ∧
    (0 ≤ T_seq 1 →
      ((control_isr (setTPins false true))^[acceptTick 1 + 0] initState).gs_timeKeeper
        = (control_inc false true)^[1] initState.gs_timeKeeper) := by
  have h := C8_autorepeat_ramp
  have hr := h.2.2.2.2.2.2 false true (Or.inl rfl) initState rfl rfl 1
  exact ⟨fun hk => h.2.1 0 hk, h.2.2.2.1 1, hr.1, hr.2.1, fun _ => hr.2.2.1 0 (by omega)⟩

end MilClock
